import Mathlib

/-!
The command entry point of terraform-graph-beautifier (`main.go`).

A shallow embedding of `main` as a function from the outcomes of the calls it
makes (the working-directory query, file opens, closes, `graphviz.LoadGraph`
and the three renderers) and the flag occurrences of the command line to the
sequence of calls the run performs and its exit status.

Conventions:
* a Go `error` is an `Option String`, `none` being `nil`;
* `log.Fatal()...Msg(..)` writes the diagnostic and calls `os.Exit(1)`:
  the run ends there and deferred functions do not run;
* a normal return of `main` runs the deferred functions, last registered
  first, and exits with status 0;
* a callee that panics unwinds `main`: deferred functions run, then the
  process exits with status 2;
* `flag.Parse` reads the command line from left to right; at an item it
  rejects, the flag package (error handling `ExitOnError`) writes its message
  and ends the process, before `main` looks at any flag.
-/

namespace TfGraphBeautifier

/-- A Go `error` value; `none` is `nil`. -/
abbrev GoError := Option String

/-- Constant `outputTypeCytoscapeJSON` (main.go:17). -/
def outputTypeCytoscapeJSON : String := "cyto-json"

/-- Constant `outputTypeCytoscapeHTML` (main.go:18). -/
def outputTypeCytoscapeHTML : String := "cyto-html"

/-- Constant `outputTypeGraphviz` (main.go:19). -/
def outputTypeGraphviz : String := "graphviz"

/-- The value returned by `graphviz.LoadGraph`. `main` only passes it on, so
it is a bare token here. -/
structure Graph where
  id : Nat
  deriving DecidableEq, Repr

/-- The streams `main` handles: the two standard streams, and one value per
open call of `main` (the input file of line 67, the output file of line 83,
the template file of line 108, the built-in template of line 111). -/
inductive Handle
  | stdin
  | stdout
  | inputFile (path : String)
  | outputFile (path : String)
  | templateFile (path : String)
  | asset (name : String)
  deriving DecidableEq, Repr

/-- How a call into another package ends: it returns, or it ends the process
itself (`os.Exit`, as `log.Fatal` does), or it panics. -/
inductive Call (α : Type)
  | returned (a : α)
  | exited (status : Nat)
  | panicked
  deriving DecidableEq, Repr

namespace cytoscape

/-- The fields of `cytoscape.RenderingOptions` that `main` sets (lines 97-100
and 122-126); `HTMLTemplate` is `nil` when it is left out. -/
structure RenderingOptions where
  GraphName : String
  EmbedModules : Bool
  HTMLTemplate : Option Handle
  deriving DecidableEq, Repr

end cytoscape

namespace graphviz

/-- The fields of `graphviz.RenderingOptions` that `main` sets (lines 129-132). -/
structure RenderingOptions where
  GraphName : String
  EmbedModules : Bool
  deriving DecidableEq, Repr

end graphviz

/-- What a renderer call did: the bytes it wrote to its writer, and how it
ended. -/
structure Rendered where
  written : String
  result : Call Unit
  deriving DecidableEq, Repr

/-- The outcomes of every call `main` makes outside itself, and the package
variable `version` (declared in another file of the package). -/
structure World where
  version : String
  getwd : String × GoError
  osOpen : String → GoError
  osCreate : String → GoError
  assetsOpen : String → GoError
  close : Handle → GoError
  loadGraph : Handle → Bool → List String → Call Graph
  writeGraphJSON : Handle → Graph → cytoscape.RenderingOptions → Rendered
  writeGraphHTML : Handle → Graph → cytoscape.RenderingOptions → Rendered
  writeGraph : Handle → Graph → graphviz.RenderingOptions → Rendered

/-- One observable step of a run, in program order. -/
inductive Event
  | getwd (dir : String) (err : GoError)
  | panic (err : GoError)
  | usage (status : Nat)
  | println (line : String)
  | logDebug (msg : String)
  | logFatal (err : GoError) (msg : String)
  | fileOpen (h : Handle) (err : GoError)
  | loadGraph (input : Handle) (keepTfJunk : Bool) (excludePatterns : List String)
      (result : Call Graph)
  | writeGraphJSON (out : Handle) (graph : Graph) (opts : cytoscape.RenderingOptions)
      (r : Rendered)
  | writeGraphHTML (out : Handle) (graph : Graph) (opts : cytoscape.RenderingOptions)
      (r : Rendered)
  | writeGraph (out : Handle) (graph : Graph) (opts : graphviz.RenderingOptions)
      (r : Rendered)
  | close (h : Handle) (err : GoError)
  deriving DecidableEq, Repr

/-- A finished run: what it did, and the exit status of the process. -/
structure Run where
  trace : List Event
  status : Nat
  deriving DecidableEq, Repr

/-- The run `r` preceded by the events `evs`. -/
def Run.after (evs : List Event) (r : Run) : Run :=
  ⟨evs ++ r.trace, r.status⟩

/-! ## `filepath.Base` and `getWorkingDir` -/

/-- Go's `filepath.Base` with separator `/`: the empty path gives `.`,
trailing separators are dropped, the part after the last remaining separator
is kept, and a path of separators only gives `/`. -/
def filepathBase (path : String) : String :=
  if path = "" then "."
  else
    let stripped := (path.toList.reverse.dropWhile (fun c => c = '/')).reverse
    let last := (stripped.reverse.takeWhile (fun c => c ≠ '/')).reverse
    if last = [] then "/" else String.mk last

/-- Function `getWorkingDir` (main.go:22-28): `Except.error` stands for the
panic on a failed `os.Getwd`. -/
def getWorkingDir (w : World) : Except String String :=
  match w.getwd.2 with
  | some err => .error err
  | none => .ok (filepathBase w.getwd.1)

/-! ## Command-line flags -/

/-- The variables bound to the flags of `main` (lines 32-44). -/
structure Flags where
  inputFilePath : String
  outputType : String
  outputFilePath : String
  debug : Bool
  printVersion : Bool
  excludePatterns : List String
  keepTfJunk : Bool
  graphName : String
  embedModules : Bool
  cytoHTMLTemplatePath : String
  deriving DecidableEq, Repr

/-- The default values given to the flag definitions of lines 32-44;
`workingDir` is the value of the call `getWorkingDir()` of line 42. -/
def flagDefaults (workingDir : String) : Flags where
  inputFilePath := ""
  outputType := outputTypeCytoscapeHTML
  outputFilePath := ""
  debug := false
  printVersion := false
  excludePatterns := []
  keepTfJunk := false
  graphName := workingDir
  embedModules := true
  cytoHTMLTemplatePath := ""

/-- One item of the command line, as `flag.Parse` reads it: an occurrence of
one of the ten flags of `main` with the value parsed for it; an item at which
`flag.Parse` fails and the flag package ends the process with `status` (2 for
an undefined flag, a malformed or missing value, 0 for `-h` and `-help`); or
the first non-flag argument (or `--`), at which parsing stops. -/
inductive Arg
  | input (path : String)
  | outputType (t : String)
  | output (path : String)
  | debug (b : Bool)
  | v (b : Bool)
  | exclude (pattern : String)
  | keepTfJunk (b : Bool)
  | graphName (name : String)
  | embedModules (b : Bool)
  | cytoHTMLTemplate (path : String)
  | rejected (status : Nat)
  | positional
  deriving DecidableEq, Repr

/-- Modelled from the spec: the `Set` method of `arrayFlags`, a type declared
in a file of the package that is not available. The spec calls the option a
"repeatable exclusion pattern list": each occurrence adds its value at the
end of the list. -/
def arrayFlags.Set (patterns : List String) (value : String) : List String :=
  patterns ++ [value]

/-- The effect of one flag occurrence on the flag variables; the other items
set nothing. -/
def Flags.set (f : Flags) : Arg → Flags
  | .input p => { f with inputFilePath := p }
  | .outputType t => { f with outputType := t }
  | .output p => { f with outputFilePath := p }
  | .debug b => { f with debug := b }
  | .v b => { f with printVersion := b }
  | .exclude p => { f with excludePatterns := arrayFlags.Set f.excludePatterns p }
  | .keepTfJunk b => { f with keepTfJunk := b }
  | .graphName n => { f with graphName := n }
  | .embedModules b => { f with embedModules := b }
  | .cytoHTMLTemplate p => { f with cytoHTMLTemplatePath := p }
  | .rejected _ => f
  | .positional => f

/-- The call `flag.Parse()` of line 47: the items are read from left to right,
each flag occurrence setting its variable. The result is the flag variables
when parsing stops and, when it stops at a rejected item, the status with
which the flag package ends the process; parsing also stops, without error, at
the first non-flag argument. -/
def flagParse : Flags → List Arg → Flags × Option Nat
  | f, [] => (f, none)
  | f, .rejected status :: _ => (f, some status)
  | f, .positional :: _ => (f, none)
  | f, a :: rest => flagParse (f.set a) rest

/-! ## Deferred closes -/

/-- A deferred function of `main` (lines 71-75, 87-91, 116-120): it closes
`file` and, when the close fails, logs `msg` at fatal level. -/
structure Deferred where
  file : Handle
  msg : String
  deriving DecidableEq, Repr

/-- Running the deferred functions, most recent first, on the way out of
`main`; `status` is the exit status when all of them return (0 after a normal
return, 2 after a panic). A failed close logs fatally: exit status 1, and the
remaining deferred functions do not run. -/
def runDeferred (w : World) : List Deferred → Nat → Run
  | [], status => ⟨[], status⟩
  | d :: ds, status =>
    let err := w.close d.file
    if err ≠ none then
      ⟨[.close d.file err, .logFatal err d.msg], 1⟩
    else
      (runDeferred w ds status).after [.close d.file err]

/-- What follows a call into another package, given how the call ended and
the deferred functions registered so far: `normal` when it returned, the end
of the process when it exited, unwinding when it panicked. -/
def afterCall {α : Type} (w : World) (deferred : List Deferred) (result : Call α)
    (normal : α → Run) : Run :=
  match result with
  | .returned a => normal a
  | .exited status => ⟨[], status⟩
  | .panicked => (runDeferred w deferred 2).after [.panic none]

/-- The debug message `log.Debug().Msg(msg)`: written only at debug level
(lines 56-59). -/
def logDebug (f : Flags) (msg : String) : List Event :=
  if f.debug then [.logDebug msg] else []

/-! ## `main` up to the output-type switch (lines 31-92) -/

/-- The local state of `main` on reaching the switch of line 94. -/
structure SwitchState where
  flags : Flags
  err : GoError
  graph : Graph
  outputFile : Handle
  deferred : List Deferred
  deriving DecidableEq, Repr

/-- The part of `main` before the switch either ends the run or reaches the
switch, after the events `trace`. -/
inductive Prelude
  | ended (run : Run)
  | atSwitch (trace : List Event) (s : SwitchState)
  deriving DecidableEq, Repr

/-- The prelude `p` preceded by the events `evs`. -/
def Prelude.after (evs : List Event) : Prelude → Prelude
  | .ended run => .ended (run.after evs)
  | .atSwitch trace s => .atSwitch (evs ++ trace) s

/-- Lines 79-92: choose the output stream. -/
def selectOutput (w : World) (f : Flags) (err : GoError) (graph : Graph)
    (deferred : List Deferred) : Prelude :=
  if f.outputFilePath ≠ "" then
    let outputFile := Handle.outputFile f.outputFilePath
    let err := w.osCreate f.outputFilePath
    if err ≠ none then
      .ended ⟨[.fileOpen outputFile err, .logFatal err "Cannot open the file for writing"], 1⟩
    else
      .atSwitch [.fileOpen outputFile err]
        ⟨f, err, graph, outputFile,
          ⟨outputFile, "Cannot close the file after writing"⟩ :: deferred⟩
  else
    .atSwitch [] ⟨f, err, graph, Handle.stdout, deferred⟩

/-- Line 77: load the graph from `inputFile`, then go on to the output. -/
def loadFrom (w : World) (f : Flags) (err : GoError) (inputFile : Handle)
    (deferred : List Deferred) : Prelude :=
  let result := w.loadGraph inputFile f.keepTfJunk f.excludePatterns
  let ev := Event.loadGraph inputFile f.keepTfJunk f.excludePatterns result
  match result with
  | .returned graph => (selectOutput w f err graph deferred).after [ev]
  | .exited status => .ended ⟨[ev], status⟩
  | .panicked => .ended ((runDeferred w deferred 2).after [ev, .panic none])

/-- Lines 62-77: choose the input stream and load the graph. -/
def selectInput (w : World) (f : Flags) : Prelude :=
  if f.inputFilePath ≠ "" then
    let inputFile := Handle.inputFile f.inputFilePath
    let err := w.osOpen f.inputFilePath
    if err ≠ none then
      .ended ⟨[.fileOpen inputFile err, .logFatal err "Cannot open the file for reading"], 1⟩
    else
      (loadFrom w f err inputFile [⟨inputFile, "Cannot close the file after reading"⟩]).after
        [.fileOpen inputFile err]
  else
    loadFrom w f none Handle.stdin []

/-- Lines 31-92 of `main`. The default of `-graph-name` is computed while the
flags are defined, before the command line is parsed; a command line that
`flag.Parse` rejects ends the run at line 47. -/
def mainPrelude (w : World) (args : List Arg) : Prelude :=
  match getWorkingDir w with
  | .error err => .ended ⟨[.getwd w.getwd.1 w.getwd.2, .panic (some err)], 2⟩
  | .ok workingDir =>
    let parsed := flagParse (flagDefaults workingDir) args
    match parsed.2 with
    | some status => .ended ⟨[.getwd w.getwd.1 w.getwd.2, .usage status], status⟩
    | none =>
      let f := parsed.1
      if f.printVersion then
        .ended ⟨[.getwd w.getwd.1 w.getwd.2, .println w.version], 0⟩
      else
        (selectInput w f).after [.getwd w.getwd.1 w.getwd.2]

/-! ## The output-type switch (lines 94-135) and the return of `main` -/

/-- The end of a renderer call (last statement of its case): `main` returns
when the renderer returned. -/
def afterRender (w : World) (deferred : List Deferred) (r : Rendered) : Run :=
  afterCall w deferred r.result (fun _ => runDeferred w deferred 0)

/-- Case `outputTypeCytoscapeJSON` (lines 95-100). -/
def caseCytoscapeJSON (w : World) (s : SwitchState) : Run :=
  let opts : cytoscape.RenderingOptions :=
    { GraphName := s.flags.graphName, EmbedModules := s.flags.embedModules,
      HTMLTemplate := none }
  let r := w.writeGraphJSON s.outputFile s.graph opts
  (afterRender w s.deferred r).after
    (logDebug s.flags "Output graph data to Cytoscape.js JSON format" ++
      [.writeGraphJSON s.outputFile s.graph opts r])

/-- The template of lines 105-112 and the error of opening it. -/
def openTemplate (w : World) (f : Flags) : Handle × GoError :=
  if f.cytoHTMLTemplatePath ≠ "" then
    (Handle.templateFile f.cytoHTMLTemplatePath, w.osOpen f.cytoHTMLTemplatePath)
  else
    (Handle.asset "index.gohtml", w.assetsOpen "index.gohtml")

/-- Case `outputTypeCytoscapeHTML` (lines 101-126). -/
def caseCytoscapeHTML (w : World) (s : SwitchState) : Run :=
  let template := (openTemplate w s.flags).1
  let err := (openTemplate w s.flags).2
  if err ≠ none then
    ⟨logDebug s.flags "Output graph to HTML" ++
      [.fileOpen template err,
        .logFatal err "Cannot open the HTML template file for reading"], 1⟩
  else
    let deferred := ⟨template, "Cannot close the file after reading"⟩ :: s.deferred
    let opts : cytoscape.RenderingOptions :=
      { GraphName := s.flags.graphName, EmbedModules := s.flags.embedModules,
        HTMLTemplate := some template }
    let r := w.writeGraphHTML s.outputFile s.graph opts
    (afterRender w deferred r).after
      (logDebug s.flags "Output graph to HTML" ++
        [.fileOpen template err, .writeGraphHTML s.outputFile s.graph opts r])

/-- Case `outputTypeGraphviz` (lines 127-132). -/
def caseGraphviz (w : World) (s : SwitchState) : Run :=
  let opts : graphviz.RenderingOptions :=
    { GraphName := s.flags.graphName, EmbedModules := s.flags.embedModules }
  let r := w.writeGraph s.outputFile s.graph opts
  (afterRender w s.deferred r).after
    (logDebug s.flags "Output graph data to Graphviz Dot format" ++
      [.writeGraph s.outputFile s.graph opts r])

/-- The switch of lines 94-135, to the end of the run. -/
def mainSwitch (w : World) (s : SwitchState) : Run :=
  if s.flags.outputType = outputTypeCytoscapeJSON then caseCytoscapeJSON w s
  else if s.flags.outputType = outputTypeCytoscapeHTML then caseCytoscapeHTML w s
  else if s.flags.outputType = outputTypeGraphviz then caseGraphviz w s
  else ⟨[.logFatal s.err ("Invalid output type : " ++ s.flags.outputType)], 1⟩

/-- Function `main` (main.go:30-136). -/
def main (w : World) (args : List Arg) : Run :=
  match mainPrelude w args with
  | .ended run => run
  | .atSwitch trace s => (mainSwitch w s).after trace

/-! ## Reading a trace -/

/-- The three renderers. -/
inductive Renderer
  | writeGraphJSON
  | writeGraphHTML
  | writeGraph
  deriving DecidableEq, Repr

/-- One renderer invocation: which renderer, the writer and graph it was
given, and the fields of its rendering options. -/
structure RenderCall where
  renderer : Renderer
  out : Handle
  graph : Graph
  graphName : String
  embedModules : Bool
  htmlTemplate : Option Handle
  deriving DecidableEq, Repr

/-- The renderer invocation an event stands for, if any. -/
def Event.renderCall : Event → Option RenderCall
  | .writeGraphJSON out g opts _ =>
    some ⟨.writeGraphJSON, out, g, opts.GraphName, opts.EmbedModules, opts.HTMLTemplate⟩
  | .writeGraphHTML out g opts _ =>
    some ⟨.writeGraphHTML, out, g, opts.GraphName, opts.EmbedModules, opts.HTMLTemplate⟩
  | .writeGraph out g opts _ =>
    some ⟨.writeGraph, out, g, opts.GraphName, opts.EmbedModules, none⟩
  | _ => none

/-- The renderer invocations of a trace, in order. -/
def renderCalls (trace : List Event) : List RenderCall :=
  trace.filterMap Event.renderCall

/-- One invocation of `graphviz.LoadGraph` with its arguments and outcome. -/
structure LoadCall where
  input : Handle
  keepTfJunk : Bool
  excludePatterns : List String
  result : Call Graph
  deriving DecidableEq, Repr

/-- The `graphviz.LoadGraph` invocation an event stands for, if any. -/
def Event.loadCall : Event → Option LoadCall
  | .loadGraph input keep patterns result => some ⟨input, keep, patterns, result⟩
  | _ => none

/-- The `graphviz.LoadGraph` invocations of a trace, in order. -/
def loadCalls (trace : List Event) : List LoadCall :=
  trace.filterMap Event.loadCall

/-- Whether a stream is an HTML template (a file or the built-in one). -/
def Handle.isTemplate : Handle → Bool
  | .templateFile _ => true
  | .asset _ => true
  | _ => false

/-- The template an open attempt is for, with the error of the attempt. -/
def Event.templateOpen : Event → Option (Handle × GoError)
  | .fileOpen h err => if h.isTemplate then some (h, err) else none
  | _ => none

/-- The attempts to open a template, in order. -/
def templateOpens (trace : List Event) : List (Handle × GoError) :=
  trace.filterMap Event.templateOpen

/-- The path an `os.Create` attempt is for, with the error of the attempt. -/
def Event.outputCreate : Event → Option (String × GoError)
  | .fileOpen (.outputFile path) err => some (path, err)
  | _ => none

/-- The attempts to create an output file, in order. -/
def outputCreates (trace : List Event) : List (String × GoError) :=
  trace.filterMap Event.outputCreate

/-- The bytes an event writes to an output stream: a renderer writes to its
writer, `fmt.Println` writes a line to standard output. -/
def Event.write : Event → Option (Handle × String)
  | .writeGraphJSON out _ _ r => some (out, r.written)
  | .writeGraphHTML out _ _ r => some (out, r.written)
  | .writeGraph out _ _ r => some (out, r.written)
  | .println line => some (Handle.stdout, line ++ "\n")
  | _ => none

/-- The writes of a trace to output streams, in order. -/
def writes (trace : List Event) : List (Handle × String) :=
  trace.filterMap Event.write

/-- The stream an event closes, if any. -/
def Event.closed : Event → Option Handle
  | .close h _ => some h
  | _ => none

/-- The streams on which `Close` was called, in order. -/
def closes (trace : List Event) : List Handle :=
  trace.filterMap Event.closed

/-- The effect of one event on the content of the file at `path` (`none`: no
such file): a successful `os.Create` of it leaves it empty, a renderer writing
to it appends. -/
def Event.onFile (path : String) (content : Option String) : Event → Option String
  | .fileOpen (.outputFile p) none => if p = path then some "" else content
  | e =>
    match e.write with
    | some (.outputFile p, bytes) =>
      if p = path then content.map (fun c => c ++ bytes) else content
    | _ => content

/-- The content of the file at `path` after a trace, from its content before. -/
def contentAfter (path : String) (content : Option String) (trace : List Event) :
    Option String :=
  trace.foldl (Event.onFile path) content

/-- Whether an event is a call that opens a stream, loads the graph, renders
or prints (as opposed to a log line, a close, the working-directory query or
a panic). -/
def Event.isCall : Event → Bool
  | .println _ => true
  | .fileOpen _ _ => true
  | .loadGraph _ _ _ _ => true
  | .writeGraphJSON _ _ _ _ => true
  | .writeGraphHTML _ _ _ _ => true
  | .writeGraph _ _ _ _ => true
  | _ => false

/-- The calls of a trace, in order. -/
def calls (trace : List Event) : List Event :=
  trace.filter Event.isCall

/-- The path an `os.Open` attempt on the input is for, with its error. -/
def Event.inputOpen : Event → Option (String × GoError)
  | .fileOpen (.inputFile path) err => some (path, err)
  | _ => none

/-- The attempts to open the input file, in order. -/
def inputOpens (trace : List Event) : List (String × GoError) :=
  trace.filterMap Event.inputOpen

/-- Whether an event creates an output file or invokes a renderer. -/
def Event.isOutputStep (e : Event) : Bool :=
  e.outputCreate.isSome || e.renderCall.isSome

/-- The flag variables when `flag.Parse()` stops, `os.Getwd` having
succeeded. -/
def parsedFlags (w : World) (args : List Arg) : Flags :=
  (flagParse (flagDefaults (filepathBase w.getwd.1)) args).1

/-- The status with which the flag package ends the process when it rejects
the command line; `none` when `flag.Parse()` returns. -/
def parseExit (w : World) (args : List Arg) : Option Nat :=
  (flagParse (flagDefaults (filepathBase w.getwd.1)) args).2

/-- The input stream lines 63-67 choose for the flag values `f`. -/
def chosenInput (f : Flags) : Handle :=
  if f.inputFilePath ≠ "" then Handle.inputFile f.inputFilePath else Handle.stdin

/-- The output stream lines 80-83 choose for the flag values `f`. -/
def chosenOutput (f : Flags) : Handle :=
  if f.outputFilePath ≠ "" then Handle.outputFile f.outputFilePath else Handle.stdout

/-- An output type is recognized when it is one of the three constants. -/
def recognized (t : String) : Prop :=
  t = outputTypeCytoscapeJSON ∨ t = outputTypeCytoscapeHTML ∨ t = outputTypeGraphviz

instance (t : String) : Decidable (recognized t) := by
  unfold recognized; infer_instance

/-- The events of lines 63-76 on a run whose input opens. -/
def inputEvents (f : Flags) : List Event :=
  if f.inputFilePath ≠ "" then [.fileOpen (Handle.inputFile f.inputFilePath) none] else []

/-- The deferred close registered by lines 71-75, if any. -/
def inputDeferred (f : Flags) : List Deferred :=
  if f.inputFilePath ≠ "" then
    [⟨Handle.inputFile f.inputFilePath, "Cannot close the file after reading"⟩]
  else []

/-- The events of lines 80-92 on a run whose output opens. -/
def outputEvents (f : Flags) : List Event :=
  if f.outputFilePath ≠ "" then [.fileOpen (Handle.outputFile f.outputFilePath) none] else []

/-- The deferred close registered by lines 87-91, if any. -/
def outputDeferred (f : Flags) : List Deferred :=
  if f.outputFilePath ≠ "" then
    [⟨Handle.outputFile f.outputFilePath, "Cannot close the file after writing"⟩]
  else []

/-- The call of line 77 with the outcome `result`. -/
def loadEvent (f : Flags) (result : Call Graph) : Event :=
  .loadGraph (chosenInput f) f.keepTfJunk f.excludePatterns result

/-- The working-directory query of line 42 (through `getWorkingDir`). -/
def getwdEvent (w : World) : Event :=
  .getwd w.getwd.1 w.getwd.2

/-- The events of a run up to the switch, when it gets there having loaded the
graph `g`. -/
def switchTrace (w : World) (f : Flags) (g : Graph) : List Event :=
  getwdEvent w :: (inputEvents f ++ (loadEvent f (.returned g) :: outputEvents f))

/-- The local state at the switch of a run that gets there having loaded the
graph `g`. -/
def switchState (f : Flags) (g : Graph) : SwitchState :=
  ⟨f, none, g, chosenOutput f, outputDeferred f ++ inputDeferred f⟩

/-- The run gets to the call of `graphviz.LoadGraph` of line 77: the working
directory is known, the command line is accepted, the version flag is not set
and the input file, if any, opens. -/
def reachesLoad (w : World) (args : List Arg) : Prop :=
  w.getwd.2 = none ∧ parseExit w args = none ∧ (parsedFlags w args).printVersion = false ∧
    ((parsedFlags w args).inputFilePath ≠ "" →
      w.osOpen (parsedFlags w args).inputFilePath = none)

instance (w : World) (args : List Arg) : Decidable (reachesLoad w args) := by
  unfold reachesLoad; infer_instance

/-- The run gets to the switch of line 94 with the graph `g`: it gets to the
call of `graphviz.LoadGraph`, which returns `g`, and the output file, if any,
is created. -/
def reachesSwitch (w : World) (args : List Arg) (g : Graph) : Prop :=
  reachesLoad w args ∧
    w.loadGraph (chosenInput (parsedFlags w args)) (parsedFlags w args).keepTfJunk
      (parsedFlags w args).excludePatterns = .returned g ∧
    ((parsedFlags w args).outputFilePath ≠ "" →
      w.osCreate (parsedFlags w args).outputFilePath = none)

instance (w : World) (args : List Arg) (g : Graph) : Decidable (reachesSwitch w args g) := by
  unfold reachesSwitch; infer_instance

/-! ## Sample environments -/

/-- An environment in which every call succeeds: the working directory is
`/home/ops/infra`, the graph loads, each renderer writes a few bytes. -/
def sampleWorld : World where
  version := "v0.3.4"
  getwd := ("/home/ops/infra", none)
  osOpen := fun _ => none
  osCreate := fun _ => none
  assetsOpen := fun _ => none
  close := fun _ => none
  loadGraph := fun _ _ _ => .returned ⟨7⟩
  writeGraphJSON := fun _ _ _ => ⟨"[]", .returned ()⟩
  writeGraphHTML := fun _ _ _ => ⟨"<html/>", .returned ()⟩
  writeGraph := fun _ _ _ => ⟨"digraph", .returned ()⟩


/-- As `sampleWorld`, but there is no file `missing.gohtml` to open. -/
def missingTemplateWorld : World :=
  { sampleWorld with
    osOpen := fun path =>
      if path = "missing.gohtml" then some "open missing.gohtml: no such file or directory"
      else none }

/-- As `sampleWorld`, but no input file can be opened. -/
def missingInputWorld : World :=
  { sampleWorld with osOpen := fun _ => some "no such file or directory" }

/-- As `sampleWorld`, but no output file can be created. -/
def unwritableWorld : World :=
  { sampleWorld with osCreate := fun _ => some "permission denied" }

/-- As `sampleWorld`, but the working directory cannot be determined. -/
def noWorkingDirWorld : World :=
  { sampleWorld with getwd := ("", some "getwd: no such file or directory") }

/-! ## Basic facts -/

/-- The trace of a run preceded by events. -/
@[simp]
theorem Run.after_trace (evs : List Event) (r : Run) :
    (r.after evs).trace = evs ++ r.trace := rfl

/-- Preceding events do not change the exit status. -/
@[simp]
theorem Run.after_status (evs : List Event) (r : Run) :
    (r.after evs).status = r.status := rfl

/-- Every event of the deferred functions is a close or a fatal log line. -/
theorem forall_mem_runDeferred (P : Event → Prop) (w : World)
    (hclose : ∀ h err, P (.close h err)) (hfatal : ∀ err msg, P (.logFatal err msg))
    (ds : List Deferred) (status : Nat) :
    ∀ e ∈ (runDeferred w ds status).trace, P e := by
  induction ds with
  | nil => simp [runDeferred]
  | cons d ds ih =>
    simp only [runDeferred]
    split
    · simp [hclose, hfatal]
    · intro e he
      simp only [Run.after_trace, List.singleton_append, List.mem_cons] at he
      rcases he with rfl | he
      · exact hclose _ _
      · exact ih e he

/-- The deferred functions leave the given status or end with status 1. -/
theorem runDeferred_status (w : World) (ds : List Deferred) (status : Nat) :
    (runDeferred w ds status).status = status ∨ (runDeferred w ds status).status = 1 := by
  induction ds with
  | nil => simp [runDeferred]
  | cons d ds ih =>
    simp only [runDeferred]
    split
    · simp
    · simpa using ih

/-- The empty trace has no calls. -/
@[simp]
theorem calls_nil : calls [] = [] := rfl

/-- The calls of a concatenation. -/
@[simp]
theorem calls_append (l₁ l₂ : List Event) : calls (l₁ ++ l₂) = calls l₁ ++ calls l₂ := by
  simp [calls]

/-- The calls of a trace, from its first event on. -/
theorem calls_cons (e : Event) (l : List Event) :
    calls (e :: l) = if e.isCall then e :: calls l else calls l := by
  simp [calls, List.filter_cons]

/-- The deferred functions make no call. -/
@[simp]
theorem calls_runDeferred (w : World) (ds : List Deferred) (status : Nat) :
    calls (runDeferred w ds status).trace = [] := by
  simp only [calls, List.filter_eq_nil_iff]
  exact forall_mem_runDeferred _ w (fun _ _ => by simp [Event.isCall])
    (fun _ _ => by simp [Event.isCall]) ds status

/-- Nothing after a renderer invocation is a call. -/
@[simp]
theorem calls_afterRender (w : World) (ds : List Deferred) (r : Rendered) :
    calls (afterRender w ds r).trace = [] := by
  unfold afterRender afterCall
  split
  · simp
  · rfl
  · simp [calls_cons, Event.isCall]

/-- A debug message is not a call. -/
@[simp]
theorem calls_logDebug (f : Flags) (msg : String) : calls (logDebug f msg) = [] := by
  unfold logDebug
  split <;> simp [calls_cons, Event.isCall]

/-- The events of the input selection are calls. -/
@[simp]
theorem calls_inputEvents (f : Flags) : calls (inputEvents f) = inputEvents f := by
  unfold inputEvents
  split <;> simp [calls_cons, Event.isCall]

/-- The events of the output selection are calls. -/
@[simp]
theorem calls_outputEvents (f : Flags) : calls (outputEvents f) = outputEvents f := by
  unfold outputEvents
  split <;> simp [calls_cons, Event.isCall]

/-- A reading of the trace that ignores everything but calls can be taken on
the calls alone. -/
theorem filterMap_calls {β : Type} (q : Event → Option β)
    (hq : ∀ e, e.isCall = false → q e = none) (trace : List Event) :
    (calls trace).filterMap q = trace.filterMap q := by
  induction trace with
  | nil => rfl
  | cons e l ih =>
    rw [calls_cons]
    cases hc : e.isCall with
    | true => simp [List.filterMap_cons, ih]
    | false => simp [List.filterMap_cons, hq e hc, ih]

/-- Renderer invocations can be read on the calls. -/
theorem renderCalls_calls (trace : List Event) :
    renderCalls (calls trace) = renderCalls trace :=
  filterMap_calls _ (fun e h => by cases e <;> simp_all [Event.isCall, Event.renderCall]) trace

/-- Graph loads can be read on the calls. -/
theorem loadCalls_calls (trace : List Event) : loadCalls (calls trace) = loadCalls trace :=
  filterMap_calls _ (fun e h => by cases e <;> simp_all [Event.isCall, Event.loadCall]) trace

/-- Template opens can be read on the calls. -/
theorem templateOpens_calls (trace : List Event) :
    templateOpens (calls trace) = templateOpens trace :=
  filterMap_calls _ (fun e h => by cases e <;> simp_all [Event.isCall, Event.templateOpen]) trace

/-- Output creates can be read on the calls. -/
theorem outputCreates_calls (trace : List Event) :
    outputCreates (calls trace) = outputCreates trace :=
  filterMap_calls _ (fun e h => by cases e <;> simp_all [Event.isCall, Event.outputCreate]) trace

/-- Input opens can be read on the calls. -/
theorem inputOpens_calls (trace : List Event) : inputOpens (calls trace) = inputOpens trace :=
  filterMap_calls _ (fun e h => by cases e <;> simp_all [Event.isCall, Event.inputOpen]) trace

/-- Writes can be read on the calls. -/
theorem writes_calls (trace : List Event) : writes (calls trace) = writes trace :=
  filterMap_calls _ (fun e h => by cases e <;> simp_all [Event.isCall, Event.write]) trace

/-- The shape of the part of `main` before the switch: the eight ways it can
go, each with the condition under which it is taken. -/
theorem mainPrelude_cases (w : World) (args : List Arg) :
    (∃ e, w.getwd.2 = some e ∧
      mainPrelude w args = .ended ⟨[getwdEvent w, .panic (some e)], 2⟩) ∨
    (∃ st, w.getwd.2 = none ∧ parseExit w args = some st ∧
      mainPrelude w args = .ended ⟨[getwdEvent w, .usage st], st⟩) ∨
    (w.getwd.2 = none ∧ parseExit w args = none ∧ (parsedFlags w args).printVersion = true ∧
      mainPrelude w args = .ended ⟨[getwdEvent w, .println w.version], 0⟩) ∨
    (∃ e, w.getwd.2 = none ∧ parseExit w args = none ∧
      (parsedFlags w args).printVersion = false ∧
      (parsedFlags w args).inputFilePath ≠ "" ∧
      w.osOpen (parsedFlags w args).inputFilePath = some e ∧
      mainPrelude w args = .ended
        ⟨[getwdEvent w, .fileOpen (Handle.inputFile (parsedFlags w args).inputFilePath) (some e),
          .logFatal (some e) "Cannot open the file for reading"], 1⟩) ∨
    (∃ status, reachesLoad w args ∧
      w.loadGraph (chosenInput (parsedFlags w args)) (parsedFlags w args).keepTfJunk
        (parsedFlags w args).excludePatterns = .exited status ∧
      mainPrelude w args = .ended
        ⟨getwdEvent w :: (inputEvents (parsedFlags w args) ++
          [loadEvent (parsedFlags w args) (.exited status)]), status⟩) ∨
    (reachesLoad w args ∧
      w.loadGraph (chosenInput (parsedFlags w args)) (parsedFlags w args).keepTfJunk
        (parsedFlags w args).excludePatterns = .panicked ∧
      mainPrelude w args = .ended
        ⟨getwdEvent w :: (inputEvents (parsedFlags w args) ++
          ([loadEvent (parsedFlags w args) .panicked, .panic none] ++
            (runDeferred w (inputDeferred (parsedFlags w args)) 2).trace)),
          (runDeferred w (inputDeferred (parsedFlags w args)) 2).status⟩) ∨
    (∃ g e, reachesLoad w args ∧
      w.loadGraph (chosenInput (parsedFlags w args)) (parsedFlags w args).keepTfJunk
        (parsedFlags w args).excludePatterns = .returned g ∧
      (parsedFlags w args).outputFilePath ≠ "" ∧
      w.osCreate (parsedFlags w args).outputFilePath = some e ∧
      mainPrelude w args = .ended
        ⟨getwdEvent w :: (inputEvents (parsedFlags w args) ++
          [loadEvent (parsedFlags w args) (.returned g),
            .fileOpen (Handle.outputFile (parsedFlags w args).outputFilePath) (some e),
            .logFatal (some e) "Cannot open the file for writing"]), 1⟩) ∨
    (∃ g, reachesSwitch w args g ∧
      mainPrelude w args = .atSwitch (switchTrace w (parsedFlags w args) g)
        (switchState (parsedFlags w args) g)) := by
  simp only [reachesSwitch, reachesLoad]
  generalize hf : parsedFlags w args = f
  generalize hx : parseExit w args = x
  have hf2 : (flagParse (flagDefaults (filepathBase w.getwd.1)) args).1 = f := hf
  have hx2 : (flagParse (flagDefaults (filepathBase w.getwd.1)) args).2 = x := hx
  unfold mainPrelude getWorkingDir
  cases hwd : w.getwd.2 with
  | some e => simp [getwdEvent, hwd]
  | none =>
    simp only [hf2, hx2, getwdEvent, hwd]
    cases x with
    | some st => simp
    | none =>
    cases hv : f.printVersion with
    | true => simp
    | false =>
      simp only [Bool.false_eq_true, if_false]
      by_cases hin : f.inputFilePath = "" <;> by_cases hout : f.outputFilePath = "" <;>
        cases ho : w.osOpen f.inputFilePath <;> cases hc : w.osCreate f.outputFilePath <;>
        cases hl : w.loadGraph (chosenInput f) f.keepTfJunk f.excludePatterns <;>
        simp_all [selectInput, loadFrom, selectOutput, inputEvents, inputDeferred, loadEvent,
          chosenInput, chosenOutput, outputEvents, outputDeferred, Prelude.after, Run.after,
          switchTrace, switchState, getwdEvent]

/-- The three output-type constants are pairwise distinct. -/
@[simp]
theorem html_ne_json : outputTypeCytoscapeHTML ≠ outputTypeCytoscapeJSON := by decide

@[simp]
theorem graphviz_ne_json : outputTypeGraphviz ≠ outputTypeCytoscapeJSON := by decide

@[simp]
theorem graphviz_ne_html : outputTypeGraphviz ≠ outputTypeCytoscapeHTML := by decide

@[simp]
theorem json_ne_html : outputTypeCytoscapeJSON ≠ outputTypeCytoscapeHTML := by decide

@[simp]
theorem json_ne_graphviz : outputTypeCytoscapeJSON ≠ outputTypeGraphviz := by decide

@[simp]
theorem html_ne_graphviz : outputTypeCytoscapeHTML ≠ outputTypeGraphviz := by decide

/-- The status of a run whose graph load panics is not zero. -/
theorem runDeferred_two_ne_zero (w : World) (ds : List Deferred) :
    (runDeferred w ds 2).status ≠ 0 := by
  rcases runDeferred_status w ds 2 with h | h <;> omega

/-- The calls and exit status of every run of `main`: the twelve ways a run
can go, each with the condition under which it is taken. -/
theorem main_calls_cases (w : World) (args : List Arg) :
    (∃ e, w.getwd.2 = some e ∧ main w args = ⟨[getwdEvent w, .panic (some e)], 2⟩) ∨
    (∃ st, w.getwd.2 = none ∧ parseExit w args = some st ∧
      main w args = ⟨[getwdEvent w, .usage st], st⟩) ∨
    (w.getwd.2 = none ∧ parseExit w args = none ∧ (parsedFlags w args).printVersion = true ∧
      main w args = ⟨[getwdEvent w, .println w.version], 0⟩) ∨
    (∃ e, w.getwd.2 = none ∧ parseExit w args = none ∧
      (parsedFlags w args).printVersion = false ∧
      (parsedFlags w args).inputFilePath ≠ "" ∧
      w.osOpen (parsedFlags w args).inputFilePath = some e ∧
      calls (main w args).trace =
        [.fileOpen (Handle.inputFile (parsedFlags w args).inputFilePath) (some e)] ∧
      (main w args).status = 1) ∨
    (∃ status, reachesLoad w args ∧
      w.loadGraph (chosenInput (parsedFlags w args)) (parsedFlags w args).keepTfJunk
        (parsedFlags w args).excludePatterns = .exited status ∧
      calls (main w args).trace =
        inputEvents (parsedFlags w args) ++ [loadEvent (parsedFlags w args) (.exited status)] ∧
      (main w args).status = status) ∨
    (reachesLoad w args ∧
      w.loadGraph (chosenInput (parsedFlags w args)) (parsedFlags w args).keepTfJunk
        (parsedFlags w args).excludePatterns = .panicked ∧
      calls (main w args).trace =
        inputEvents (parsedFlags w args) ++ [loadEvent (parsedFlags w args) .panicked] ∧
      (main w args).status ≠ 0) ∨
    (∃ g e, reachesLoad w args ∧
      w.loadGraph (chosenInput (parsedFlags w args)) (parsedFlags w args).keepTfJunk
        (parsedFlags w args).excludePatterns = .returned g ∧
      (parsedFlags w args).outputFilePath ≠ "" ∧
      w.osCreate (parsedFlags w args).outputFilePath = some e ∧
      calls (main w args).trace =
        inputEvents (parsedFlags w args) ++
          [loadEvent (parsedFlags w args) (.returned g),
            .fileOpen (Handle.outputFile (parsedFlags w args).outputFilePath) (some e)] ∧
      (main w args).status = 1) ∨
    (∃ g, reachesSwitch w args g ∧
      mainPrelude w args =
        .atSwitch (switchTrace w (parsedFlags w args) g) (switchState (parsedFlags w args) g) ∧
      (parsedFlags w args).outputType = outputTypeCytoscapeJSON ∧
      calls (main w args).trace =
        inputEvents (parsedFlags w args) ++ (loadEvent (parsedFlags w args) (.returned g) ::
          (outputEvents (parsedFlags w args) ++
            [.writeGraphJSON (chosenOutput (parsedFlags w args)) g
              ⟨(parsedFlags w args).graphName, (parsedFlags w args).embedModules, none⟩
              (w.writeGraphJSON (chosenOutput (parsedFlags w args)) g
                ⟨(parsedFlags w args).graphName, (parsedFlags w args).embedModules, none⟩)]))) ∨
    (∃ g e, reachesSwitch w args g ∧
      mainPrelude w args =
        .atSwitch (switchTrace w (parsedFlags w args) g) (switchState (parsedFlags w args) g) ∧
      (parsedFlags w args).outputType = outputTypeCytoscapeHTML ∧
      (openTemplate w (parsedFlags w args)).2 = some e ∧
      calls (main w args).trace =
        inputEvents (parsedFlags w args) ++ (loadEvent (parsedFlags w args) (.returned g) ::
          (outputEvents (parsedFlags w args) ++
            [.fileOpen (openTemplate w (parsedFlags w args)).1 (some e)])) ∧
      (main w args).status = 1) ∨
    (∃ g, reachesSwitch w args g ∧
      mainPrelude w args =
        .atSwitch (switchTrace w (parsedFlags w args) g) (switchState (parsedFlags w args) g) ∧
      (parsedFlags w args).outputType = outputTypeCytoscapeHTML ∧
      (openTemplate w (parsedFlags w args)).2 = none ∧
      calls (main w args).trace =
        inputEvents (parsedFlags w args) ++ (loadEvent (parsedFlags w args) (.returned g) ::
          (outputEvents (parsedFlags w args) ++
            [.fileOpen (openTemplate w (parsedFlags w args)).1 none,
              .writeGraphHTML (chosenOutput (parsedFlags w args)) g
                ⟨(parsedFlags w args).graphName, (parsedFlags w args).embedModules,
                  some (openTemplate w (parsedFlags w args)).1⟩
                (w.writeGraphHTML (chosenOutput (parsedFlags w args)) g
                  ⟨(parsedFlags w args).graphName, (parsedFlags w args).embedModules,
                    some (openTemplate w (parsedFlags w args)).1⟩)]))) ∨
    (∃ g, reachesSwitch w args g ∧
      mainPrelude w args =
        .atSwitch (switchTrace w (parsedFlags w args) g) (switchState (parsedFlags w args) g) ∧
      (parsedFlags w args).outputType = outputTypeGraphviz ∧
      calls (main w args).trace =
        inputEvents (parsedFlags w args) ++ (loadEvent (parsedFlags w args) (.returned g) ::
          (outputEvents (parsedFlags w args) ++
            [.writeGraph (chosenOutput (parsedFlags w args)) g
              ⟨(parsedFlags w args).graphName, (parsedFlags w args).embedModules⟩
              (w.writeGraph (chosenOutput (parsedFlags w args)) g
                ⟨(parsedFlags w args).graphName, (parsedFlags w args).embedModules⟩)]))) ∨
    (∃ g, reachesSwitch w args g ∧
      mainPrelude w args =
        .atSwitch (switchTrace w (parsedFlags w args) g) (switchState (parsedFlags w args) g) ∧
      ¬ recognized (parsedFlags w args).outputType ∧
      calls (main w args).trace =
        inputEvents (parsedFlags w args) ++ (loadEvent (parsedFlags w args) (.returned g) ::
          outputEvents (parsedFlags w args)) ∧
      (main w args).status = 1) := by
  rcases mainPrelude_cases w args with ⟨e, hwd, h⟩ | ⟨st, hwd, hx, h⟩ | ⟨hwd, hx, hv, h⟩ |
    ⟨e, hwd, hx, hv, hin, ho, h⟩ | ⟨st, hrl, hl, h⟩ | ⟨hrl, hl, h⟩ |
    ⟨g, e, hrl, hl, hout, hc, h⟩ | ⟨g, hrs, h⟩
  · left; exact ⟨e, hwd, by simp [main, h]⟩
  · right; left; exact ⟨st, hwd, hx, by simp [main, h]⟩
  all_goals right; right
  · left; exact ⟨hwd, hx, hv, by simp [main, h]⟩
  · right; left
    exact ⟨e, hwd, hx, hv, hin, ho, by simp [main, h, calls_cons, Event.isCall, getwdEvent],
      by simp [main, h]⟩
  · right; right; left
    exact ⟨st, hrl, hl, by simp [main, h, calls_cons, Event.isCall, getwdEvent, loadEvent],
      by simp [main, h]⟩
  · right; right; right; left
    exact ⟨hrl, hl, by simp [main, h, calls_cons, Event.isCall, getwdEvent, loadEvent],
      by simpa [main, h] using runDeferred_two_ne_zero w _⟩
  · right; right; right; right; left
    exact ⟨g, e, hrl, hl, hout, hc,
      by simp [main, h, calls_cons, Event.isCall, getwdEvent, loadEvent], by simp [main, h]⟩
  · right; right; right; right; right
    have hpre : calls (switchTrace w (parsedFlags w args) g) =
        inputEvents (parsedFlags w args) ++ (loadEvent (parsedFlags w args) (.returned g) ::
          outputEvents (parsedFlags w args)) := by
      simp [switchTrace, calls_cons, Event.isCall, getwdEvent, loadEvent]
    by_cases hj : (parsedFlags w args).outputType = outputTypeCytoscapeJSON
    · left
      refine ⟨g, hrs, h, hj, ?_⟩
      simp [main, h, hpre, mainSwitch, switchState, hj, caseCytoscapeJSON, calls_cons,
        Event.isCall]
    by_cases hh : (parsedFlags w args).outputType = outputTypeCytoscapeHTML
    · obtain ht | ⟨e, ht⟩ : (openTemplate w (parsedFlags w args)).2 = none ∨
          ∃ e, (openTemplate w (parsedFlags w args)).2 = some e := by
        cases (openTemplate w (parsedFlags w args)).2 <;> simp
      rotate_left
      · right; left
        refine ⟨g, e, hrs, h, hh, ht, ?_, ?_⟩
        · simp [main, h, hpre, mainSwitch, switchState, hh, caseCytoscapeHTML, ht,
            calls_cons, Event.isCall]
        · simp [main, h, mainSwitch, switchState, hh, caseCytoscapeHTML, ht]
      · right; right; left
        refine ⟨g, hrs, h, hh, ht, ?_⟩
        simp [main, h, hpre, mainSwitch, switchState, hh, caseCytoscapeHTML, ht,
          calls_cons, Event.isCall]
    by_cases hg : (parsedFlags w args).outputType = outputTypeGraphviz
    · right; right; right; left
      refine ⟨g, hrs, h, hg, ?_⟩
      simp [main, h, hpre, mainSwitch, switchState, hj, hh, hg, caseGraphviz, calls_cons,
        Event.isCall]
    · right; right; right; right
      refine ⟨g, hrs, h, by simp [recognized, hj, hh, hg], ?_, ?_⟩
      · simp [main, h, hpre, mainSwitch, switchState, hj, hh, hg, calls_cons, Event.isCall]
      · simp [main, h, mainSwitch, switchState, hj, hh, hg]

/-- Reading a trace chosen by a condition. -/
theorem filterMap_ite {β : Type} (q : Event → Option β) (c : Prop) [Decidable c]
    (l₁ l₂ : List Event) :
    (if c then l₁ else l₂).filterMap q = if c then l₁.filterMap q else l₂.filterMap q := by
  split <;> rfl

/-- Every renderer invocation of a run gets the chosen output stream and the
flag values; `WriteGraphHTML` gets the chosen template. -/
theorem renderCalls_of_main (w : World) (args : List Arg) :
    ∀ c ∈ renderCalls (main w args).trace,
      c.out = chosenOutput (parsedFlags w args) ∧
      c.graphName = (parsedFlags w args).graphName ∧
      c.embedModules = (parsedFlags w args).embedModules ∧
      (c.renderer = .writeGraphHTML →
        c.htmlTemplate = some (openTemplate w (parsedFlags w args)).1) := by
  rw [← renderCalls_calls]
  rcases main_calls_cases w args with ⟨e, hwd, h⟩ | ⟨st, hwd, hx, h⟩ | ⟨hwd, hx, hv, h⟩ |
    ⟨e, hwd, hx, hv, hin, ho, h, hs⟩ | ⟨st, hrl, hl, h, hs⟩ | ⟨hrl, hl, h, hs⟩ |
    ⟨g, e, hrl, hl, hout, hc, h, hs⟩ | ⟨g, hrs, hr, ht, h⟩ | ⟨g, e, hrs, hr, ht, hte, h, hs⟩ |
    ⟨g, hrs, hr, ht, hte, h⟩ | ⟨g, hrs, hr, ht, h⟩ | ⟨g, hrs, hr, ht, h, hs⟩ <;>
  simp [h, renderCalls, Event.renderCall, inputEvents, outputEvents, loadEvent, getwdEvent,
    filterMap_ite, calls_cons, Event.isCall]

/-- Every `graphviz.LoadGraph` invocation of a run gets the chosen input
stream and the flag values. -/
theorem loadCalls_of_main (w : World) (args : List Arg) :
    ∀ c ∈ loadCalls (main w args).trace,
      c.input = chosenInput (parsedFlags w args) ∧
      c.keepTfJunk = (parsedFlags w args).keepTfJunk ∧
      c.excludePatterns = (parsedFlags w args).excludePatterns := by
  rw [← loadCalls_calls]
  rcases main_calls_cases w args with ⟨e, hwd, h⟩ | ⟨st, hwd, hx, h⟩ | ⟨hwd, hx, hv, h⟩ |
    ⟨e, hwd, hx, hv, hin, ho, h, hs⟩ | ⟨st, hrl, hl, h, hs⟩ | ⟨hrl, hl, h, hs⟩ |
    ⟨g, e, hrl, hl, hout, hc, h, hs⟩ | ⟨g, hrs, hr, ht, h⟩ | ⟨g, e, hrs, hr, ht, hte, h, hs⟩ |
    ⟨g, hrs, hr, ht, hte, h⟩ | ⟨g, hrs, hr, ht, h⟩ | ⟨g, hrs, hr, ht, h, hs⟩ <;>
  simp [h, loadCalls, Event.loadCall, inputEvents, outputEvents, loadEvent, getwdEvent,
    filterMap_ite, calls_cons, Event.isCall]

/-- In a list `A ++ x :: B` cut before an element `e` that satisfies `p`, the
element `x` comes before the cut when neither `x` nor any element of `A`
satisfies `p`. -/
theorem mem_before_split (p : Event → Bool) (x e : Event) (A B pre post : List Event)
    (h : A ++ x :: B = pre ++ e :: post) (hA : ∀ y ∈ A, p y = false) (hx : p x = false)
    (he : p e = true) : x ∈ pre := by
  rcases List.append_eq_append_iff.mp h with ⟨a, h1, h2⟩ | ⟨c, h1, h2⟩
  · cases a with
    | nil =>
      simp only [List.nil_append, List.cons.injEq] at h2
      rw [h2.1, he] at hx
      cases hx
    | cons y a =>
      simp only [List.cons_append, List.cons.injEq] at h2
      rw [h1, h2.1]
      simp
  · cases c with
    | nil =>
      simp only [List.nil_append, List.cons.injEq] at h2
      rw [← h2.1, he] at hx
      cases hx
    | cons y c =>
      simp only [List.cons_append, List.cons.injEq] at h2
      have hy : p y = false := hA y (by rw [h1]; simp)
      rw [← h2.1, he] at hy
      cases hy

/-- Opening the input is not an output step. -/
theorem isOutputStep_inputEvents (f : Flags) :
    ∀ y ∈ inputEvents f, y.isOutputStep = false := by
  unfold inputEvents
  split <;> simp [Event.isOutputStep, Event.outputCreate, Event.renderCall]

/-- The two ways the template of the HTML case is chosen. -/
theorem openTemplate_cases (w : World) (f : Flags) :
    (f.cytoHTMLTemplatePath ≠ "" ∧
      openTemplate w f =
        (Handle.templateFile f.cytoHTMLTemplatePath, w.osOpen f.cytoHTMLTemplatePath)) ∨
    (f.cytoHTMLTemplatePath = "" ∧
      openTemplate w f = (Handle.asset "index.gohtml", w.assetsOpen "index.gohtml")) := by
  unfold openTemplate
  by_cases h : f.cytoHTMLTemplatePath = "" <;> simp [h]

/-- A run that reaches the switch has the trace and state of `switchTrace`
and `switchState`. -/
theorem atSwitch_eq (w : World) (args : List Arg) (tr : List Event) (s : SwitchState)
    (hreach : mainPrelude w args = .atSwitch tr s) :
    ∃ g, tr = switchTrace w (parsedFlags w args) g ∧ s = switchState (parsedFlags w args) g := by
  rcases mainPrelude_cases w args with ⟨e, hwd, h⟩ | ⟨st, hwd, hx, h⟩ | ⟨hwd, hx, hv, h⟩ |
    ⟨e, hwd, hx, hv, hin, ho, h⟩ | ⟨st, hrl, hl, h⟩ | ⟨hrl, hl, h⟩ |
    ⟨g', e, hrl, hl, hout', hc, h⟩ | ⟨g', hrs, h⟩
  all_goals rw [h] at hreach
  · cases hreach
  · cases hreach
  · cases hreach
  · cases hreach
  · cases hreach
  · cases hreach
  · cases hreach
  · cases hreach
    exact ⟨g', rfl, rfl⟩

/-- The renderer invocations of a concatenation. -/
theorem renderCalls_append (l₁ l₂ : List Event) :
    renderCalls (l₁ ++ l₂) = renderCalls l₁ ++ renderCalls l₂ :=
  List.filterMap_append _ _ _

/-- No renderer is invoked before the switch. -/
theorem renderCalls_switchTrace (w : World) (f : Flags) (g : Graph) :
    renderCalls (switchTrace w f g) = [] := by
  simp [switchTrace, renderCalls, Event.renderCall, getwdEvent, inputEvents, outputEvents,
    loadEvent, filterMap_ite]

/-- The renderer invocations of the switch. -/
theorem renderCalls_mainSwitch (w : World) (s : SwitchState) :
    renderCalls (mainSwitch w s).trace =
      if s.flags.outputType = outputTypeCytoscapeJSON then
        [⟨.writeGraphJSON, s.outputFile, s.graph, s.flags.graphName, s.flags.embedModules, none⟩]
      else if s.flags.outputType = outputTypeCytoscapeHTML then
        if (openTemplate w s.flags).2 = none then
          [⟨.writeGraphHTML, s.outputFile, s.graph, s.flags.graphName, s.flags.embedModules,
            some (openTemplate w s.flags).1⟩]
        else []
      else if s.flags.outputType = outputTypeGraphviz then
        [⟨.writeGraph, s.outputFile, s.graph, s.flags.graphName, s.flags.embedModules, none⟩]
      else [] := by
  rw [← renderCalls_calls]
  unfold mainSwitch
  by_cases hj : s.flags.outputType = outputTypeCytoscapeJSON
  · simp [hj, caseCytoscapeJSON, calls_cons, Event.isCall, renderCalls, Event.renderCall]
  by_cases hh : s.flags.outputType = outputTypeCytoscapeHTML
  · by_cases ht : (openTemplate w s.flags).2 = none <;>
      simp [hh, ht, caseCytoscapeHTML, calls_cons, Event.isCall, renderCalls, Event.renderCall]
  by_cases hg : s.flags.outputType = outputTypeGraphviz
  · simp [hg, caseGraphviz, calls_cons, Event.isCall, renderCalls, Event.renderCall]
  · simp [hj, hh, hg, calls_cons, Event.isCall, renderCalls]

/-- A run that reaches the switch with an unrecognized output type ends in
the default branch. -/
theorem main_of_unrecognized (w : World) (args : List Arg) (tr : List Event) (s : SwitchState)
    (hun : ¬ recognized (parsedFlags w args).outputType)
    (hreach : mainPrelude w args = .atSwitch tr s) :
    main w args =
      ⟨tr ++ [.logFatal s.err ("Invalid output type : " ++ (parsedFlags w args).outputType)],
        1⟩ := by
  obtain ⟨g, rfl, rfl⟩ := atSwitch_eq w args tr s hreach
  simp only [recognized, not_or] at hun
  simp [main, hreach, mainSwitch, switchState, hun, Run.after]

/-- No run with an unrecognized output type invokes a renderer. -/
theorem renderCalls_of_unrecognized (w : World) (args : List Arg)
    (hun : ¬ recognized (parsedFlags w args).outputType) :
    renderCalls (main w args).trace = [] := by
  rw [← renderCalls_calls]
  rcases main_calls_cases w args with ⟨e, hwd, h⟩ | ⟨st, hwd, hx, h⟩ | ⟨hwd, hx, hv, h⟩ |
    ⟨e, hwd, hx, hv, hin, ho, h, hs⟩ | ⟨st, hrl, hl, h, hs⟩ | ⟨hrl, hl, h, hs⟩ |
    ⟨g, e, hrl, hl, hout, hc, h, hs⟩ | ⟨g, hrs, hr, ht, h⟩ | ⟨g, e, hrs, hr, ht, hte, h, hs⟩ |
    ⟨g, hrs, hr, ht, hte, h⟩ | ⟨g, hrs, hr, ht, h⟩ | ⟨g, hrs, hr, ht, h, hs⟩ <;>
  simp_all [renderCalls, Event.renderCall, inputEvents, outputEvents, loadEvent, getwdEvent,
    filterMap_ite, calls_cons, Event.isCall, recognized]

/-- A trace that ends with a successful create of `path` and a log line
leaves the file at `path` empty. -/
theorem contentAfter_create_fatal (path : String) (old : Option String) (pre : List Event)
    (err : GoError) (msg : String) :
    contentAfter path old
      (pre ++ [.fileOpen (Handle.outputFile path) none, .logFatal err msg]) = some "" := by
  simp [contentAfter, List.foldl_append, Event.onFile, Event.write]

/-- The graph load is not among the events of the input selection. -/
theorem loadEvent_not_mem_inputEvents (f : Flags) (r : Call Graph) :
    loadEvent f r ∉ inputEvents f := by
  unfold inputEvents loadEvent
  split <;> simp

/-- The graph load is not among the events of the deferred functions. -/
theorem loadEvent_not_mem_runDeferred (w : World) (f : Flags) (r : Call Graph)
    (ds : List Deferred) (status : Nat) : loadEvent f r ∉ (runDeferred w ds status).trace :=
  fun h => forall_mem_runDeferred (fun e => e ≠ loadEvent f r) w
    (fun _ _ => by simp [loadEvent]) (fun _ _ => by simp [loadEvent]) ds status _ h rfl

/-! ## Flag defaults -/

/-- Without a `-keep-tf-junk` occurrence the flag keeps its default. -/
theorem flagParse_keepTfJunk (args : List Arg) (d : Flags)
    (h : ∀ b, Arg.keepTfJunk b ∉ args) : (flagParse d args).1.keepTfJunk = d.keepTfJunk := by
  induction args generalizing d with
  | nil => rfl
  | cons a l ih =>
    have hl : ∀ b, Arg.keepTfJunk b ∉ l := fun b hb => h b (List.mem_cons_of_mem _ hb)
    have ha : ∀ b, a ≠ Arg.keepTfJunk b := fun b hb => h b (hb ▸ List.mem_cons_self _ _)
    cases a <;> simp_all [flagParse, Flags.set]

/-- Without an `-embed-modules` occurrence the flag keeps its default. -/
theorem flagParse_embedModules (args : List Arg) (d : Flags)
    (h : ∀ b, Arg.embedModules b ∉ args) :
    (flagParse d args).1.embedModules = d.embedModules := by
  induction args generalizing d with
  | nil => rfl
  | cons a l ih =>
    have hl : ∀ b, Arg.embedModules b ∉ l := fun b hb => h b (List.mem_cons_of_mem _ hb)
    have ha : ∀ b, a ≠ Arg.embedModules b := fun b hb => h b (hb ▸ List.mem_cons_self _ _)
    cases a <;> simp_all [flagParse, Flags.set]

/-- Without a `-graph-name` occurrence the flag keeps its default. -/
theorem flagParse_graphName (args : List Arg) (d : Flags)
    (h : ∀ n, Arg.graphName n ∉ args) : (flagParse d args).1.graphName = d.graphName := by
  induction args generalizing d with
  | nil => rfl
  | cons a l ih =>
    have hl : ∀ n, Arg.graphName n ∉ l := fun n hn => h n (List.mem_cons_of_mem _ hn)
    have ha : ∀ n, a ≠ Arg.graphName n := fun n hn => h n (hn ▸ List.mem_cons_self _ _)
    cases a <;> simp_all [flagParse, Flags.set]

/-- Under the conditions of `reachesSwitch` the run reaches the switch. -/
theorem mainPrelude_of_reachesSwitch (w : World) (args : List Arg) (g : Graph)
    (hreach : reachesSwitch w args g) :
    mainPrelude w args =
      .atSwitch (switchTrace w (parsedFlags w args) g) (switchState (parsedFlags w args) g) := by
  rcases mainPrelude_cases w args with ⟨e, hwd, h⟩ | ⟨st, hwd, hx, h⟩ | ⟨hwd, hx, hv, h⟩ |
    ⟨e, hwd, hx, hv, hin, ho, h⟩ | ⟨st, hrl, hl, h⟩ | ⟨hrl, hl, h⟩ |
    ⟨g', e, hrl, hl, hout', hc, h⟩ | ⟨g', hrs, h⟩ <;>
  simp_all [reachesSwitch, reachesLoad]

/-- Under the conditions of `reachesLoad`, `graphviz.LoadGraph` is called
exactly once, on the chosen input stream with the flag values. -/
theorem loadCalls_of_reachesLoad (w : World) (args : List Arg) (hreach : reachesLoad w args) :
    loadCalls (main w args).trace =
      [⟨chosenInput (parsedFlags w args), (parsedFlags w args).keepTfJunk,
        (parsedFlags w args).excludePatterns,
        w.loadGraph (chosenInput (parsedFlags w args)) (parsedFlags w args).keepTfJunk
          (parsedFlags w args).excludePatterns⟩] := by
  rw [← loadCalls_calls]
  rcases openTemplate_cases w (parsedFlags w args) with ⟨hp, hop⟩ | ⟨hp, hop⟩ <;>
  rcases main_calls_cases w args with ⟨e, hwd, h⟩ | ⟨st, hwd, hx, h⟩ | ⟨hwd, hx, hv, h⟩ |
    ⟨e, hwd, hx, hv, hin, ho, h, hs⟩ | ⟨st, hrl, hl, h, hs⟩ | ⟨hrl, hl, h, hs⟩ |
    ⟨g, e, hrl, hl, hout, hc, h, hs⟩ | ⟨g, hrs, hr, ht, h⟩ | ⟨g, e, hrs, hr, ht, hte, h, hs⟩ |
    ⟨g, hrs, hr, ht, hte, h⟩ | ⟨g, hrs, hr, ht, h⟩ | ⟨g, hrs, hr, ht, h, hs⟩ <;>
  simp_all [reachesSwitch, reachesLoad, loadCalls, Event.loadCall, inputEvents, outputEvents,
    loadEvent, getwdEvent, filterMap_ite, calls_cons, Event.isCall]

/-- Under the conditions of `reachesSwitch` the renderer invocations of the
run are those of the switch: one call of the renderer named by a recognized
output type, on the chosen output stream with the loaded graph and the flag
values, unless the HTML template does not open. -/
theorem renderCalls_of_reachesSwitch (w : World) (args : List Arg) (g : Graph)
    (hreach : reachesSwitch w args g) :
    renderCalls (main w args).trace =
      if (parsedFlags w args).outputType = outputTypeCytoscapeJSON then
        [⟨.writeGraphJSON, chosenOutput (parsedFlags w args), g, (parsedFlags w args).graphName,
          (parsedFlags w args).embedModules, none⟩]
      else if (parsedFlags w args).outputType = outputTypeCytoscapeHTML then
        if (openTemplate w (parsedFlags w args)).2 = none then
          [⟨.writeGraphHTML, chosenOutput (parsedFlags w args), g,
            (parsedFlags w args).graphName, (parsedFlags w args).embedModules,
            some (openTemplate w (parsedFlags w args)).1⟩]
        else []
      else if (parsedFlags w args).outputType = outputTypeGraphviz then
        [⟨.writeGraph, chosenOutput (parsedFlags w args), g, (parsedFlags w args).graphName,
          (parsedFlags w args).embedModules, none⟩]
      else [] := by
  have hpre := mainPrelude_of_reachesSwitch w args g hreach
  have hm : renderCalls (main w args).trace =
      renderCalls (mainSwitch w (switchState (parsedFlags w args) g)).trace := by
    simp only [main, hpre, Run.after_trace, renderCalls_append, renderCalls_switchTrace,
      List.nil_append]
  rw [hm, renderCalls_mainSwitch]
  rfl

/-- Under the conditions of `reachesSwitch`, the only attempt to open a
template is the one of the `cyto-html` case, on the chosen template. -/
theorem templateOpens_of_reachesSwitch (w : World) (args : List Arg) (g : Graph)
    (hreach : reachesSwitch w args g)
    (hh : (parsedFlags w args).outputType = outputTypeCytoscapeHTML) :
    templateOpens (main w args).trace =
      [((if (parsedFlags w args).cytoHTMLTemplatePath ≠ "" then
          Handle.templateFile (parsedFlags w args).cytoHTMLTemplatePath
        else Handle.asset "index.gohtml"), (openTemplate w (parsedFlags w args)).2)] := by
  rw [← templateOpens_calls]
  rcases openTemplate_cases w (parsedFlags w args) with ⟨hp, hop⟩ | ⟨hp, hop⟩ <;>
  rcases main_calls_cases w args with ⟨e, hwd, h⟩ | ⟨st, hwd, hx, h⟩ | ⟨hwd, hx, hv, h⟩ |
    ⟨e, hwd, hx, hv, hin, ho, h, hs⟩ | ⟨st, hrl, hl, h, hs⟩ | ⟨hrl, hl, h, hs⟩ |
    ⟨g', e, hrl, hl, hout, hc, h, hs⟩ | ⟨g', hrs, hr, ht, h⟩ |
    ⟨g', e, hrs, hr, ht, hte, h, hs⟩ | ⟨g', hrs, hr, ht, hte, h⟩ | ⟨g', hrs, hr, ht, h⟩ |
    ⟨g', hrs, hr, ht, h, hs⟩ <;>
  simp_all [reachesSwitch, reachesLoad, templateOpens, Event.templateOpen, Handle.isTemplate,
    inputEvents, outputEvents, loadEvent, getwdEvent, filterMap_ite, calls_cons, Event.isCall,
    recognized]

/-- The handle of the template of the `cyto-html` case. -/
theorem openTemplate_fst (w : World) (f : Flags) :
    (openTemplate w f).1 =
      if f.cytoHTMLTemplatePath ≠ "" then Handle.templateFile f.cytoHTMLTemplatePath
      else Handle.asset "index.gohtml" := by
  unfold openTemplate
  split <;> rfl

/-- The last element of a path that ends in a name is that name. -/
theorem filepathBase_last (dir name : List Char) (hne : name ≠ []) (hns : '/' ∉ name) :
    filepathBase (String.mk (dir ++ '/' :: name)) = String.mk name := by
  have hpath : String.mk (dir ++ '/' :: name) ≠ "" := by
    intro h
    have hd := congrArg String.data h
    simp at hd
  obtain ⟨c, r, hcr⟩ : ∃ c r, name.reverse = c :: r := by
    cases h : name.reverse with
    | nil => exact absurd (List.reverse_eq_nil_iff.mp h) hne
    | cons c r => exact ⟨c, r, rfl⟩
  have hc : c ≠ '/' := by
    intro h
    apply hns
    have hmem : c ∈ name.reverse := by rw [hcr]; exact List.mem_cons_self _ _
    rw [← h]
    exact List.mem_reverse.mp hmem
  have hdrop : List.dropWhile (fun c => decide (c = '/'))
      (name.reverse ++ '/' :: dir.reverse) = name.reverse ++ '/' :: dir.reverse := by
    rw [hcr]
    simp [List.dropWhile_cons, hc]
  have htake : List.takeWhile (fun c => decide (c ≠ '/'))
      (name.reverse ++ '/' :: dir.reverse) = name.reverse := by
    rw [List.takeWhile_append_of_pos]
    · simp
    · intro a ha
      have ha2 : a ∈ name := List.mem_reverse.mp ha
      simp only [ne_eq, decide_not, Bool.not_eq_eq_eq_not, Bool.not_true, decide_eq_false_iff_not]
      intro h
      exact hns (h ▸ ha2)
  have hrev : (dir ++ '/' :: name).reverse = name.reverse ++ '/' :: dir.reverse := by simp
  unfold filepathBase
  rw [if_neg hpath]
  simp only [String.toList, hrev, hdrop, List.reverse_reverse, htake, hne, if_false]

/-- Under the conditions of `reachesSwitch`, with a recognized output type
and, for `cyto-html`, a template that opens, exactly one renderer is invoked,
on the chosen output stream, with the loaded graph and the flag values. -/
theorem exists_renderCall_of_reachesSwitch (w : World) (args : List Arg) (g : Graph)
    (hreach : reachesSwitch w args g) (hrec : recognized (parsedFlags w args).outputType)
    (htpl : (parsedFlags w args).outputType = outputTypeCytoscapeHTML →
      (openTemplate w (parsedFlags w args)).2 = none) :
    ∃ c, renderCalls (main w args).trace = [c] ∧ c.out = chosenOutput (parsedFlags w args) ∧
      c.graph = g ∧ c.graphName = (parsedFlags w args).graphName ∧
      c.embedModules = (parsedFlags w args).embedModules := by
  rw [renderCalls_of_reachesSwitch w args g hreach]
  rcases hrec with hj | hh | hg
  · simp [hj]
  · simp [hh, htpl hh]
  · simp [hg]

/-! ## The claims -/

/-- C9: every renderer invocation of every run, whichever renderer it is,
carries `EmbedModules` equal to the value of the `-embed-modules` flag and
`GraphName` equal to the value of the `-graph-name` flag; and for each of the
three output types a run that reaches the switch (for `cyto-html`, with a
template that opens) invokes the renderer of that type exactly once with
options carrying these two flag values. -/
theorem rendering_options_carry_flags (w : World) (args : List Arg) :
    (∀ c ∈ renderCalls (main w args).trace,
      c.embedModules = (parsedFlags w args).embedModules ∧
      c.graphName = (parsedFlags w args).graphName) ∧
    (∀ g, reachesSwitch w args g →
      ((parsedFlags w args).outputType = outputTypeCytoscapeJSON →
        renderCalls (main w args).trace =
          [⟨.writeGraphJSON, chosenOutput (parsedFlags w args), g,
            (parsedFlags w args).graphName, (parsedFlags w args).embedModules, none⟩]) ∧
      ((parsedFlags w args).outputType = outputTypeCytoscapeHTML →
        (openTemplate w (parsedFlags w args)).2 = none →
        renderCalls (main w args).trace =
          [⟨.writeGraphHTML, chosenOutput (parsedFlags w args), g,
            (parsedFlags w args).graphName, (parsedFlags w args).embedModules,
            some (openTemplate w (parsedFlags w args)).1⟩]) ∧
      ((parsedFlags w args).outputType = outputTypeGraphviz →
        renderCalls (main w args).trace =
          [⟨.writeGraph, chosenOutput (parsedFlags w args), g,
            (parsedFlags w args).graphName, (parsedFlags w args).embedModules, none⟩])) := by
  refine ⟨fun c hc => ⟨(renderCalls_of_main w args c hc).2.2.1,
    (renderCalls_of_main w args c hc).2.1⟩, fun g hreach => ?_⟩
  rw [renderCalls_of_reachesSwitch w args g hreach]
  refine ⟨fun hj => ?_, fun hh ht => ?_, fun hg => ?_⟩
  · simp [hj]
  · simp [hh, ht]
  · simp [hg]

/-- C9 at three runs with `-embed-modules=false -graph-name prod`, one for each
output type. -/
theorem rendering_options_carry_flags_witness :
    renderCalls (main sampleWorld
        [.outputType "cyto-json", .embedModules false, .graphName "prod"]).trace =
      [⟨.writeGraphJSON, Handle.stdout, ⟨7⟩, "prod", false, none⟩] ∧
    renderCalls (main sampleWorld
        [.outputType "cyto-html", .embedModules false, .graphName "prod"]).trace =
      [⟨.writeGraphHTML, Handle.stdout, ⟨7⟩, "prod", false,
        some (Handle.asset "index.gohtml")⟩] ∧
    renderCalls (main sampleWorld
        [.outputType "graphviz", .embedModules false, .graphName "prod"]).trace =
      [⟨.writeGraph, Handle.stdout, ⟨7⟩, "prod", false, none⟩] :=
  ⟨((rendering_options_carry_flags sampleWorld
      [.outputType "cyto-json", .embedModules false, .graphName "prod"]).2 ⟨7⟩
      (by decide)).1 (by decide),
    ((rendering_options_carry_flags sampleWorld
      [.outputType "cyto-html", .embedModules false, .graphName "prod"]).2 ⟨7⟩
      (by decide)).2.1 (by decide) (by decide),
    ((rendering_options_carry_flags sampleWorld
      [.outputType "graphviz", .embedModules false, .graphName "prod"]).2 ⟨7⟩
      (by decide)).2.2 (by decide)⟩

/-- C6: when `-keep-tf-junk` is not given, every call of `graphviz.LoadGraph`
gets keep-junk = false, and a run that gets to the load makes exactly one such
call; when `-embed-modules` is not given, every renderer invocation gets
`EmbedModules` = true, and when `-graph-name` is not given, every renderer
invocation gets as `GraphName` the `filepath.Base` of the working directory,
a run that reaches the switch with a recognized output type (for `cyto-html`,
with a template that opens) making exactly one such invocation; the
`filepath.Base` of a directory ending in `/name` is `name`. -/
theorem defaults_reach_load_and_renderer (w : World) (args : List Arg) :
    ((∀ b, Arg.keepTfJunk b ∉ args) →
      (∀ c ∈ loadCalls (main w args).trace, c.keepTfJunk = false) ∧
      (reachesLoad w args →
        ∃ c, loadCalls (main w args).trace = [c] ∧ c.keepTfJunk = false)) ∧
    ((∀ b, Arg.embedModules b ∉ args) →
      (∀ c ∈ renderCalls (main w args).trace, c.embedModules = true) ∧
      (∀ g, reachesSwitch w args g → recognized (parsedFlags w args).outputType →
        ((parsedFlags w args).outputType = outputTypeCytoscapeHTML →
          (openTemplate w (parsedFlags w args)).2 = none) →
        ∃ c, renderCalls (main w args).trace = [c] ∧ c.embedModules = true)) ∧
    ((∀ n, Arg.graphName n ∉ args) →
      (∀ c ∈ renderCalls (main w args).trace, c.graphName = filepathBase w.getwd.1) ∧
      (∀ g, reachesSwitch w args g → recognized (parsedFlags w args).outputType →
        ((parsedFlags w args).outputType = outputTypeCytoscapeHTML →
          (openTemplate w (parsedFlags w args)).2 = none) →
        ∃ c, renderCalls (main w args).trace = [c] ∧
          c.graphName = filepathBase w.getwd.1)) ∧
    (∀ dir name : List Char, name ≠ [] → '/' ∉ name →
      filepathBase (String.mk (dir ++ '/' :: name)) = String.mk name) := by
  refine ⟨fun h => ?_, fun h => ?_, fun h => ?_, filepathBase_last⟩
  · have hk : (parsedFlags w args).keepTfJunk = false := by
      rw [parsedFlags, flagParse_keepTfJunk _ _ h]
      rfl
    refine ⟨fun c hc => ?_, fun hreach => ⟨_, loadCalls_of_reachesLoad w args hreach, hk⟩⟩
    rw [(loadCalls_of_main w args c hc).2.1, hk]
  · have hk : (parsedFlags w args).embedModules = true := by
      rw [parsedFlags, flagParse_embedModules _ _ h]
      rfl
    refine ⟨fun c hc => ?_, fun g hreach hrec htpl => ?_⟩
    · rw [(renderCalls_of_main w args c hc).2.2.1, hk]
    · obtain ⟨c, hc, _, _, _, he⟩ := exists_renderCall_of_reachesSwitch w args g hreach hrec htpl
      exact ⟨c, hc, he.trans hk⟩
  · have hk : (parsedFlags w args).graphName = filepathBase w.getwd.1 := by
      rw [parsedFlags, flagParse_graphName _ _ h]
      rfl
    refine ⟨fun c hc => ?_, fun g hreach hrec htpl => ?_⟩
    · rw [(renderCalls_of_main w args c hc).2.1, hk]
    · obtain ⟨c, hc, _, _, hn, _⟩ := exists_renderCall_of_reachesSwitch w args g hreach hrec htpl
      exact ⟨c, hc, hn.trans hk⟩

/-- C6 at a run with only `-output-type graphviz` given, in `/home/ops/infra`:
the graph is loaded with keep-junk = false and the renderer is invoked with
`EmbedModules` = true and `GraphName` = `infra`. -/
theorem defaults_reach_load_and_renderer_witness :
    (∃ c, loadCalls (main sampleWorld [.outputType "graphviz"]).trace = [c] ∧
      c.keepTfJunk = false) ∧
    (∃ c, renderCalls (main sampleWorld [.outputType "graphviz"]).trace = [c] ∧
      c.embedModules = true) ∧
    (∃ c, renderCalls (main sampleWorld [.outputType "graphviz"]).trace = [c] ∧
      c.graphName = filepathBase sampleWorld.getwd.1) ∧
    filepathBase (String.mk (['/', 'h', 'o', 'm', 'e', '/', 'o', 'p', 's'] ++
      '/' :: ['i', 'n', 'f', 'r', 'a'])) = String.mk ['i', 'n', 'f', 'r', 'a'] :=
  ⟨((defaults_reach_load_and_renderer sampleWorld [.outputType "graphviz"]).1
      (by decide)).2 (by decide),
    ((defaults_reach_load_and_renderer sampleWorld [.outputType "graphviz"]).2.1
      (by decide)).2 ⟨7⟩ (by decide) (by decide) (by decide),
    ((defaults_reach_load_and_renderer sampleWorld [.outputType "graphviz"]).2.2.1
      (by simp)).2 ⟨7⟩ (by decide) (by decide) (by decide),
    (defaults_reach_load_and_renderer sampleWorld [.outputType "graphviz"]).2.2.2
      ['/', 'h', 'o', 'm', 'e', '/', 'o', 'p', 's'] ['i', 'n', 'f', 'r', 'a']
      (by decide) (by decide)⟩

/-- C8: the stream given to `graphviz.LoadGraph` is standard input exactly
when the `-input` path is empty, and otherwise the file opened at that path;
the stream given to the renderer is standard output exactly when the
`-output` path is empty, and otherwise the file created at that path; a failed
open of the input ends the run with a non-zero status with no graph loaded and
no renderer invoked, and a failed create of the output ends it with a non-zero
status with no renderer invoked. A run that gets to the load calls
`graphviz.LoadGraph` exactly once, on that input stream, and a run that
reaches the switch with a recognized output type (for `cyto-html`, with a
template that opens) invokes exactly one renderer, on that output stream with
the loaded graph. -/
theorem input_output_stream_selection (w : World) (args : List Arg) :
    (∀ c ∈ loadCalls (main w args).trace,
      (c.input = Handle.stdin ↔ (parsedFlags w args).inputFilePath = "") ∧
      ((parsedFlags w args).inputFilePath ≠ "" →
        c.input = Handle.inputFile (parsedFlags w args).inputFilePath ∧
        ((parsedFlags w args).inputFilePath, none) ∈ inputOpens (main w args).trace)) ∧
    (∀ c ∈ renderCalls (main w args).trace,
      (c.out = Handle.stdout ↔ (parsedFlags w args).outputFilePath = "") ∧
      ((parsedFlags w args).outputFilePath ≠ "" →
        c.out = Handle.outputFile (parsedFlags w args).outputFilePath ∧
        ((parsedFlags w args).outputFilePath, none) ∈ outputCreates (main w args).trace)) ∧
    (∀ path e, (path, some e) ∈ inputOpens (main w args).trace →
      (main w args).status ≠ 0 ∧ loadCalls (main w args).trace = [] ∧
      renderCalls (main w args).trace = []) ∧
    (∀ path e, (path, some e) ∈ outputCreates (main w args).trace →
      (main w args).status ≠ 0 ∧ renderCalls (main w args).trace = []) ∧
    (reachesLoad w args →
      ∃ c, loadCalls (main w args).trace = [c] ∧
        c.input = (if (parsedFlags w args).inputFilePath = "" then Handle.stdin
          else Handle.inputFile (parsedFlags w args).inputFilePath) ∧
        c.result = w.loadGraph c.input (parsedFlags w args).keepTfJunk
          (parsedFlags w args).excludePatterns) ∧
    (∀ g, reachesSwitch w args g → recognized (parsedFlags w args).outputType →
      ((parsedFlags w args).outputType = outputTypeCytoscapeHTML →
        (openTemplate w (parsedFlags w args)).2 = none) →
      ∃ c, renderCalls (main w args).trace = [c] ∧ c.graph = g ∧
        c.out = (if (parsedFlags w args).outputFilePath = "" then Handle.stdout
          else Handle.outputFile (parsedFlags w args).outputFilePath)) := by
  have hsafe : (∀ c ∈ loadCalls (main w args).trace,
      (c.input = Handle.stdin ↔ (parsedFlags w args).inputFilePath = "") ∧
      ((parsedFlags w args).inputFilePath ≠ "" →
        c.input = Handle.inputFile (parsedFlags w args).inputFilePath ∧
        ((parsedFlags w args).inputFilePath, none) ∈ inputOpens (main w args).trace)) ∧
    (∀ c ∈ renderCalls (main w args).trace,
      (c.out = Handle.stdout ↔ (parsedFlags w args).outputFilePath = "") ∧
      ((parsedFlags w args).outputFilePath ≠ "" →
        c.out = Handle.outputFile (parsedFlags w args).outputFilePath ∧
        ((parsedFlags w args).outputFilePath, none) ∈ outputCreates (main w args).trace)) ∧
    (∀ path e, (path, some e) ∈ inputOpens (main w args).trace →
      (main w args).status ≠ 0 ∧ loadCalls (main w args).trace = [] ∧
      renderCalls (main w args).trace = []) ∧
    (∀ path e, (path, some e) ∈ outputCreates (main w args).trace →
      (main w args).status ≠ 0 ∧ renderCalls (main w args).trace = []) := by
    rw [← loadCalls_calls, ← renderCalls_calls, ← inputOpens_calls, ← outputCreates_calls]
    rcases openTemplate_cases w (parsedFlags w args) with ⟨hp, hop⟩ | ⟨hp, hop⟩ <;>
    rcases main_calls_cases w args with ⟨e, hwd, h⟩ | ⟨st, hwd, hx, h⟩ | ⟨hwd, hx, hv, h⟩ |
      ⟨e, hwd, hx, hv, hin, ho, h, hs⟩ | ⟨st, hrl, hl, h, hs⟩ | ⟨hrl, hl, h, hs⟩ |
      ⟨g, e, hrl, hl, hout, hc, h, hs⟩ | ⟨g, hrs, hr, ht, h⟩ |
      ⟨g, e, hrs, hr, ht, hte, h, hs⟩ | ⟨g, hrs, hr, ht, hte, h⟩ | ⟨g, hrs, hr, ht, h⟩ |
      ⟨g, hrs, hr, ht, h, hs⟩ <;>
    simp_all [loadCalls, renderCalls, inputOpens, outputCreates, Event.loadCall,
      Event.renderCall, Event.inputOpen, Event.outputCreate, inputEvents, outputEvents,
      loadEvent, getwdEvent, filterMap_ite, calls_cons, Event.isCall, chosenInput, chosenOutput]
  refine ⟨hsafe.1, hsafe.2.1, hsafe.2.2.1, hsafe.2.2.2, fun hreach => ?_,
    fun g hreach hrec htpl => ?_⟩
  · refine ⟨_, loadCalls_of_reachesLoad w args hreach, ?_, ?_⟩
    · by_cases hi : (parsedFlags w args).inputFilePath = "" <;> simp [chosenInput, hi]
    · rfl
  · obtain ⟨c, hc, ho, hg, _, _⟩ := exists_renderCall_of_reachesSwitch w args g hreach hrec htpl
    refine ⟨c, hc, hg, ?_⟩
    rw [ho]
    by_cases hi : (parsedFlags w args).outputFilePath = "" <;> simp [chosenOutput, hi]

/-- C8 at a run with `-input main.dot -output out.json`, at a run on the
standard streams, and at a run whose input file cannot be opened. -/
theorem input_output_stream_selection_witness :
    (∃ c, loadCalls (main sampleWorld
        [.input "main.dot", .output "out.json", .outputType "cyto-json"]).trace = [c] ∧
      c.input = (if (parsedFlags sampleWorld
          [.input "main.dot", .output "out.json", .outputType "cyto-json"]).inputFilePath = ""
        then Handle.stdin
        else Handle.inputFile (parsedFlags sampleWorld
          [.input "main.dot", .output "out.json", .outputType "cyto-json"]).inputFilePath) ∧
      c.result = sampleWorld.loadGraph c.input
        (parsedFlags sampleWorld
          [.input "main.dot", .output "out.json", .outputType "cyto-json"]).keepTfJunk
        (parsedFlags sampleWorld
          [.input "main.dot", .output "out.json", .outputType "cyto-json"]).excludePatterns) ∧
    (∃ c, renderCalls (main sampleWorld
        [.input "main.dot", .output "out.json", .outputType "cyto-json"]).trace = [c] ∧
      c.graph = ⟨7⟩ ∧
      c.out = (if (parsedFlags sampleWorld
          [.input "main.dot", .output "out.json", .outputType "cyto-json"]).outputFilePath = ""
        then Handle.stdout
        else Handle.outputFile (parsedFlags sampleWorld
          [.input "main.dot", .output "out.json", .outputType "cyto-json"]).outputFilePath)) ∧
    (∃ c, renderCalls (main sampleWorld [.outputType "graphviz"]).trace = [c] ∧
      c.graph = ⟨7⟩ ∧
      c.out = (if (parsedFlags sampleWorld [.outputType "graphviz"]).outputFilePath = ""
        then Handle.stdout
        else Handle.outputFile
          (parsedFlags sampleWorld [.outputType "graphviz"]).outputFilePath)) ∧
    ((main missingInputWorld [.input "main.dot"]).status ≠ 0 ∧
      loadCalls (main missingInputWorld [.input "main.dot"]).trace = [] ∧
      renderCalls (main missingInputWorld [.input "main.dot"]).trace = []) :=
  ⟨(input_output_stream_selection sampleWorld
      [.input "main.dot", .output "out.json", .outputType "cyto-json"]).2.2.2.2.1 (by decide),
    (input_output_stream_selection sampleWorld
      [.input "main.dot", .output "out.json", .outputType "cyto-json"]).2.2.2.2.2 ⟨7⟩
      (by decide) (by decide) (by decide),
    (input_output_stream_selection sampleWorld [.outputType "graphviz"]).2.2.2.2.2 ⟨7⟩
      (by decide) (by decide) (by decide),
    (input_output_stream_selection missingInputWorld [.input "main.dot"]).2.2.1
      "main.dot" "no such file or directory" (by decide)⟩

/-- C7: `cytoscape.WriteGraphHTML` is invoked only for output type
`cyto-html`, and the template it gets is the file at the
`-cyto-html-template` path when that path is not empty and the built-in asset
`index.gohtml` when it is, opened successfully; a failed open of a template is
of the chosen one and ends the run with status 1 and no renderer invoked; for
the output types `cyto-json` and `graphviz` no template is opened. A run that
reaches the switch with output type `cyto-html` opens the chosen template and,
when it opens, hands it to `cytoscape.WriteGraphHTML`, invoked exactly once;
when it does not open, the run ends with status 1 and no renderer invoked. -/
theorem html_template_selection (w : World) (args : List Arg) :
    (∀ c ∈ renderCalls (main w args).trace, c.renderer = .writeGraphHTML →
      (parsedFlags w args).outputType = outputTypeCytoscapeHTML ∧
      c.htmlTemplate = some
        (if (parsedFlags w args).cytoHTMLTemplatePath ≠ "" then
          Handle.templateFile (parsedFlags w args).cytoHTMLTemplatePath
        else Handle.asset "index.gohtml") ∧
      templateOpens (main w args).trace =
        [(if (parsedFlags w args).cytoHTMLTemplatePath ≠ "" then
            Handle.templateFile (parsedFlags w args).cytoHTMLTemplatePath
          else Handle.asset "index.gohtml", none)]) ∧
    (∀ t e, (t, some e) ∈ templateOpens (main w args).trace →
      t = (if (parsedFlags w args).cytoHTMLTemplatePath ≠ "" then
          Handle.templateFile (parsedFlags w args).cytoHTMLTemplatePath
        else Handle.asset "index.gohtml") ∧
      (main w args).status = 1 ∧ renderCalls (main w args).trace = []) ∧
    ((parsedFlags w args).outputType = outputTypeCytoscapeJSON ∨
        (parsedFlags w args).outputType = outputTypeGraphviz →
      templateOpens (main w args).trace = []) ∧
    (∀ g, reachesSwitch w args g →
      (parsedFlags w args).outputType = outputTypeCytoscapeHTML →
      (if (parsedFlags w args).cytoHTMLTemplatePath ≠ "" then
          w.osOpen (parsedFlags w args).cytoHTMLTemplatePath
        else w.assetsOpen "index.gohtml") = none →
      templateOpens (main w args).trace =
        [(if (parsedFlags w args).cytoHTMLTemplatePath ≠ "" then
            Handle.templateFile (parsedFlags w args).cytoHTMLTemplatePath
          else Handle.asset "index.gohtml", none)] ∧
      renderCalls (main w args).trace =
        [⟨.writeGraphHTML, chosenOutput (parsedFlags w args), g,
          (parsedFlags w args).graphName, (parsedFlags w args).embedModules,
          some (if (parsedFlags w args).cytoHTMLTemplatePath ≠ "" then
            Handle.templateFile (parsedFlags w args).cytoHTMLTemplatePath
          else Handle.asset "index.gohtml")⟩]) ∧
    (∀ g e, reachesSwitch w args g →
      (parsedFlags w args).outputType = outputTypeCytoscapeHTML →
      (if (parsedFlags w args).cytoHTMLTemplatePath ≠ "" then
          w.osOpen (parsedFlags w args).cytoHTMLTemplatePath
        else w.assetsOpen "index.gohtml") = some e →
      templateOpens (main w args).trace =
        [(if (parsedFlags w args).cytoHTMLTemplatePath ≠ "" then
            Handle.templateFile (parsedFlags w args).cytoHTMLTemplatePath
          else Handle.asset "index.gohtml", some e)] ∧
      (main w args).status = 1 ∧ renderCalls (main w args).trace = []) := by
  have hsafe : (∀ c ∈ renderCalls (main w args).trace, c.renderer = .writeGraphHTML →
      (parsedFlags w args).outputType = outputTypeCytoscapeHTML ∧
      c.htmlTemplate = some
        (if (parsedFlags w args).cytoHTMLTemplatePath ≠ "" then
          Handle.templateFile (parsedFlags w args).cytoHTMLTemplatePath
        else Handle.asset "index.gohtml") ∧
      templateOpens (main w args).trace =
        [(if (parsedFlags w args).cytoHTMLTemplatePath ≠ "" then
            Handle.templateFile (parsedFlags w args).cytoHTMLTemplatePath
          else Handle.asset "index.gohtml", none)]) ∧
    (∀ t e, (t, some e) ∈ templateOpens (main w args).trace →
      t = (if (parsedFlags w args).cytoHTMLTemplatePath ≠ "" then
          Handle.templateFile (parsedFlags w args).cytoHTMLTemplatePath
        else Handle.asset "index.gohtml") ∧
      (main w args).status = 1 ∧ renderCalls (main w args).trace = []) ∧
    ((parsedFlags w args).outputType = outputTypeCytoscapeJSON ∨
        (parsedFlags w args).outputType = outputTypeGraphviz →
      templateOpens (main w args).trace = []) := by
    rw [← renderCalls_calls, ← templateOpens_calls]
    rcases openTemplate_cases w (parsedFlags w args) with ⟨hp, hop⟩ | ⟨hp, hop⟩ <;>
    rcases main_calls_cases w args with ⟨e, hwd, h⟩ | ⟨st, hwd, hx, h⟩ | ⟨hwd, hx, hv, h⟩ |
      ⟨e, hwd, hx, hv, hin, ho, h, hs⟩ | ⟨st, hrl, hl, h, hs⟩ | ⟨hrl, hl, h, hs⟩ |
      ⟨g, e, hrl, hl, hout, hc, h, hs⟩ | ⟨g, hrs, hr, ht, h⟩ |
      ⟨g, e, hrs, hr, ht, hte, h, hs⟩ | ⟨g, hrs, hr, ht, hte, h⟩ | ⟨g, hrs, hr, ht, h⟩ |
      ⟨g, hrs, hr, ht, h, hs⟩ <;>
    simp_all [renderCalls, templateOpens, Event.renderCall, Event.templateOpen,
      Handle.isTemplate, inputEvents, outputEvents, loadEvent, getwdEvent, filterMap_ite,
      calls_cons, Event.isCall]
  have hsnd : (openTemplate w (parsedFlags w args)).2 =
      (if (parsedFlags w args).cytoHTMLTemplatePath ≠ "" then
        w.osOpen (parsedFlags w args).cytoHTMLTemplatePath
      else w.assetsOpen "index.gohtml") := by
    unfold openTemplate
    split <;> rfl
  refine ⟨hsafe.1, hsafe.2.1, hsafe.2.2, fun g hreach hh ht => ?_, fun g e hreach hh ht => ?_⟩
  · rw [← hsnd] at ht
    have hto := templateOpens_of_reachesSwitch w args g hreach hh
    rw [ht] at hto
    refine ⟨hto, ?_⟩
    rw [renderCalls_of_reachesSwitch w args g hreach, ← openTemplate_fst w (parsedFlags w args)]
    simp [hh, ht]
  · rw [← hsnd] at ht
    have hto := templateOpens_of_reachesSwitch w args g hreach hh
    rw [ht] at hto
    refine ⟨hto, (hsafe.2.1 _ e (by rw [hto]; exact List.mem_singleton.mpr rfl)).2⟩

/-- C7 at a run with `-cyto-html-template custom.gohtml`, at a run with the
built-in template, and at a run whose template file `missing.gohtml` cannot be
opened. -/
theorem html_template_selection_witness :
    (templateOpens (main sampleWorld [.cytoHTMLTemplate "custom.gohtml"]).trace =
        [(Handle.templateFile "custom.gohtml", none)] ∧
      renderCalls (main sampleWorld [.cytoHTMLTemplate "custom.gohtml"]).trace =
        [⟨.writeGraphHTML, Handle.stdout, ⟨7⟩, "infra", true,
          some (Handle.templateFile "custom.gohtml")⟩]) ∧
    (templateOpens (main sampleWorld []).trace = [(Handle.asset "index.gohtml", none)] ∧
      renderCalls (main sampleWorld []).trace =
        [⟨.writeGraphHTML, Handle.stdout, ⟨7⟩, "infra", true,
          some (Handle.asset "index.gohtml")⟩]) ∧
    (templateOpens (main missingTemplateWorld [.cytoHTMLTemplate "missing.gohtml"]).trace =
        [(Handle.templateFile "missing.gohtml",
          some "open missing.gohtml: no such file or directory")] ∧
      (main missingTemplateWorld [.cytoHTMLTemplate "missing.gohtml"]).status = 1 ∧
      renderCalls (main missingTemplateWorld [.cytoHTMLTemplate "missing.gohtml"]).trace =
        []) :=
  ⟨(html_template_selection sampleWorld [.cytoHTMLTemplate "custom.gohtml"]).2.2.2.1 ⟨7⟩
      (by decide) (by decide) (by decide),
    (html_template_selection sampleWorld []).2.2.2.1 ⟨7⟩ (by decide) (by decide) (by decide),
    (html_template_selection missingTemplateWorld
      [.cytoHTMLTemplate "missing.gohtml"]).2.2.2.2 ⟨7⟩
      "open missing.gohtml: no such file or directory" (by decide) (by decide) (by decide)⟩

/-- C1, amended: a run that reaches the output-type switch with one of the
three recognized output types and, for `cyto-html`, with a template that
opens, invokes exactly one renderer, exactly once: `cytoscape.WriteGraphJSON`
for `cyto-json`, `cytoscape.WriteGraphHTML` for `cyto-html`,
`graphviz.WriteGraph` for `graphviz`; the renderer gets the graph that
`graphviz.LoadGraph` returned and the opened output stream. -/
theorem selected_renderer_invoked_once (w : World) (args : List Arg) (tr : List Event)
    (s : SwitchState) (hreach : mainPrelude w args = .atSwitch tr s)
    (hrec : recognized s.flags.outputType)
    (htpl : s.flags.outputType = outputTypeCytoscapeHTML → (openTemplate w s.flags).2 = none) :
    loadCalls tr =
      [⟨chosenInput s.flags, s.flags.keepTfJunk, s.flags.excludePatterns, .returned s.graph⟩] ∧
    s.outputFile = chosenOutput s.flags ∧
    (s.flags.outputFilePath ≠ "" → Event.fileOpen s.outputFile none ∈ tr) ∧
    (renderCalls (main w args).trace).length = 1 ∧
    (s.flags.outputType = outputTypeCytoscapeJSON →
      renderCalls (main w args).trace =
        [⟨.writeGraphJSON, s.outputFile, s.graph, s.flags.graphName, s.flags.embedModules,
          none⟩]) ∧
    (s.flags.outputType = outputTypeCytoscapeHTML →
      renderCalls (main w args).trace =
        [⟨.writeGraphHTML, s.outputFile, s.graph, s.flags.graphName, s.flags.embedModules,
          some (openTemplate w s.flags).1⟩]) ∧
    (s.flags.outputType = outputTypeGraphviz →
      renderCalls (main w args).trace =
        [⟨.writeGraph, s.outputFile, s.graph, s.flags.graphName, s.flags.embedModules,
          none⟩]) := by
  have hm : renderCalls (main w args).trace = renderCalls (mainSwitch w s).trace := by
    obtain ⟨g, rfl, rfl⟩ := atSwitch_eq w args tr s hreach
    simp only [main, hreach, Run.after_trace, renderCalls_append, renderCalls_switchTrace,
      List.nil_append]
  rw [hm, renderCalls_mainSwitch]
  obtain ⟨g, rfl, rfl⟩ := atSwitch_eq w args tr s hreach
  refine ⟨?_, rfl, ?_, ?_, ?_, ?_, ?_⟩
  · simp [switchTrace, switchState, loadCalls, Event.loadCall, getwdEvent, inputEvents,
      outputEvents, loadEvent, filterMap_ite]
  · intro hout
    have hout2 : (parsedFlags w args).outputFilePath ≠ "" := hout
    simp [switchTrace, switchState, outputEvents, chosenOutput, hout2]
  · rcases hrec with hj | hh | hg
    · simp [hj]
    · simp [hh, htpl hh]
    · simp [hg]
  · intro hj
    simp [hj]
  · intro hh
    simp [hh, htpl hh]
  · intro hg
    simp [hg]

/-- C1, amended, at a run with `-output-type cyto-json -output graph.json`. -/
theorem selected_renderer_invoked_once_witness :
    renderCalls (main sampleWorld [.outputType "cyto-json", .output "graph.json"]).trace =
      [⟨.writeGraphJSON, Handle.outputFile "graph.json", ⟨7⟩, "infra", true, none⟩] :=
  (selected_renderer_invoked_once sampleWorld [.outputType "cyto-json", .output "graph.json"]
    [.getwd "/home/ops/infra" none, .loadGraph Handle.stdin false [] (.returned ⟨7⟩),
      .fileOpen (Handle.outputFile "graph.json") none]
    ⟨parsedFlags sampleWorld [.outputType "cyto-json", .output "graph.json"], none, ⟨7⟩,
      Handle.outputFile "graph.json",
      [⟨Handle.outputFile "graph.json", "Cannot close the file after writing"⟩]⟩
    (by decide) (by decide) (by decide)).2.2.2.2.1 (by decide)

/-- C1 as stated fails: with the default output type `cyto-html` and a
template file that cannot be opened, the run reaches the switch and ends with
status 1 without invoking any renderer. -/
theorem switch_reached_without_renderer :
    mainPrelude missingTemplateWorld [.cytoHTMLTemplate "missing.gohtml"] =
      .atSwitch [.getwd "/home/ops/infra" none, .loadGraph Handle.stdin false [] (.returned ⟨7⟩)]
        ⟨parsedFlags missingTemplateWorld [.cytoHTMLTemplate "missing.gohtml"], none, ⟨7⟩,
          Handle.stdout, []⟩ ∧
    (parsedFlags missingTemplateWorld [.cytoHTMLTemplate "missing.gohtml"]).outputType =
      outputTypeCytoscapeHTML ∧
    renderCalls (main missingTemplateWorld [.cytoHTMLTemplate "missing.gohtml"]).trace = [] ∧
    (main missingTemplateWorld [.cytoHTMLTemplate "missing.gohtml"]).status = 1 := by
  decide

/-- C2, amended: with an output-type string other than `cyto-json`,
`cyto-html` and `graphviz` (exact match) no run invokes a renderer, and every
run that reaches the output-type switch ends there with exit status 1 and the
diagnostic `Invalid output type : ` followed by that string. -/
theorem unrecognized_type_fatal_at_switch (w : World) (args : List Arg)
    (hun : ¬ recognized (parsedFlags w args).outputType) :
    renderCalls (main w args).trace = [] ∧
    ∀ tr s, mainPrelude w args = .atSwitch tr s →
      main w args =
        ⟨tr ++ [.logFatal s.err ("Invalid output type : " ++ (parsedFlags w args).outputType)],
          1⟩ := by
  exact ⟨renderCalls_of_unrecognized w args hun,
    fun tr s hreach => main_of_unrecognized w args tr s hun hreach⟩

/-- C2, amended, at a run with `-output-type svg`. -/
theorem unrecognized_type_fatal_at_switch_witness :
    main sampleWorld [.outputType "svg"] =
      ⟨[.getwd "/home/ops/infra" none, .loadGraph Handle.stdin false [] (.returned ⟨7⟩)] ++
        [.logFatal none ("Invalid output type : " ++
          (parsedFlags sampleWorld [.outputType "svg"]).outputType)], 1⟩ :=
  (unrecognized_type_fatal_at_switch sampleWorld [.outputType "svg"] (by decide)).2
    [.getwd "/home/ops/infra" none, .loadGraph Handle.stdin false [] (.returned ⟨7⟩)]
    ⟨parsedFlags sampleWorld [.outputType "svg"], none, ⟨7⟩, Handle.stdout, []⟩ (by decide)

/-- C2 as stated fails: with the version flag set, a run whose output type is
not one of the three ends with exit status 0, having logged no diagnostic. -/
theorem unrecognized_type_exits_zero_on_version :
    ¬ recognized (parsedFlags sampleWorld [.outputType "svg", .v true]).outputType ∧
    main sampleWorld [.outputType "svg", .v true] =
      ⟨[.getwd "/home/ops/infra" none, .println "v0.3.4"], 0⟩ := by
  decide

/-- C5, amended: every run in which the working directory can be determined,
`flag.Parse` accepts the command line and the version flag is set queries the
working directory, prints the version and exits with status 0: it opens no
input, output or template, loads no graph and invokes no renderer, whatever
the other flags are. -/
theorem version_flag_exits_zero (w : World) (args : List Arg) (hwd : w.getwd.2 = none)
    (haccept : parseExit w args = none)
    (hv : (parsedFlags w args).printVersion = true) :
    main w args = ⟨[.getwd w.getwd.1 none, .println w.version], 0⟩ ∧
    (∀ h err, Event.fileOpen h err ∉ (main w args).trace) ∧
    loadCalls (main w args).trace = [] ∧
    renderCalls (main w args).trace = [] := by
  have hm : main w args = ⟨[.getwd w.getwd.1 none, .println w.version], 0⟩ := by
    have hv2 : (flagParse (flagDefaults (filepathBase w.getwd.1)) args).1.printVersion = true :=
      hv
    have hx2 : (flagParse (flagDefaults (filepathBase w.getwd.1)) args).2 = none := haccept
    simp [main, mainPrelude, getWorkingDir, hwd, hv2, hx2]
  rw [hm]
  simp [loadCalls, renderCalls, Event.loadCall, Event.renderCall]

/-- C5, amended, at a run with `-input main.dot -output-type svg -v`. -/
theorem version_flag_exits_zero_witness :
    main sampleWorld [.input "main.dot", .outputType "svg", .v true] =
      ⟨[.getwd sampleWorld.getwd.1 none, .println sampleWorld.version], 0⟩ :=
  (version_flag_exits_zero sampleWorld [.input "main.dot", .outputType "svg", .v true]
    (by decide) (by decide) (by decide)).1

/-- C5 as stated fails, in two ways. When the working directory cannot be
determined, a run with the version flag given panics with exit status 2 before
the flags are parsed. When `-v` is followed by an item that `flag.Parse`
rejects (an undefined flag, say), the version flag is set and the flag package
ends the run with status 2. Neither run prints the version. -/
theorem version_flag_panics_without_working_dir :
    ((parsedFlags noWorkingDirWorld [.v true]).printVersion = true ∧
      main noWorkingDirWorld [.v true] =
        ⟨[.getwd "" (some "getwd: no such file or directory"),
          .panic (some "getwd: no such file or directory")], 2⟩) ∧
    ((parsedFlags sampleWorld [.v true, .rejected 2]).printVersion = true ∧
      main sampleWorld [.v true, .rejected 2] =
        ⟨[.getwd "/home/ops/infra" none, .usage 2], 2⟩) := by
  decide

/-- C3: in every run, whatever the output type, an output file is created and
a renderer is invoked only after `graphviz.LoadGraph`, called with the
keep-junk flag and the exclusion patterns, has returned; so a run in which
opening the input fails or `graphviz.LoadGraph` does not return creates no
output file, invokes no renderer and writes no output bytes. -/
theorem output_only_after_load (w : World) (args : List Arg) :
    (∀ pre e post, (main w args).trace = pre ++ e :: post → e.isOutputStep = true →
      ∃ g, Event.loadGraph (chosenInput (parsedFlags w args)) (parsedFlags w args).keepTfJunk
        (parsedFlags w args).excludePatterns (.returned g) ∈ pre) ∧
    ((∃ path e, (path, some e) ∈ inputOpens (main w args).trace) ∨
        (∃ c ∈ loadCalls (main w args).trace, ∀ g, c.result ≠ .returned g) →
      outputCreates (main w args).trace = [] ∧ renderCalls (main w args).trace = [] ∧
      writes (main w args).trace = []) := by
  constructor
  · intro pre e post htr he
    have hcall : e.isCall = true := by
      cases e <;> simp_all [Event.isOutputStep, Event.isCall, Event.outputCreate,
        Event.renderCall]
    have hc : calls (main w args).trace = calls pre ++ e :: calls post := by
      rw [htr, calls_append, calls_cons, hcall]
      rfl
    have hmem : e ∈ calls (main w args).trace := by
      rw [hc]
      simp
    have hload : ∀ r, (loadEvent (parsedFlags w args) r).isOutputStep = false := fun _ => rfl
    have hin := isOutputStep_inputEvents (parsedFlags w args)
    rcases main_calls_cases w args with ⟨_, _, h⟩ | ⟨_, _, _, h⟩ | ⟨_, _, _, h⟩ |
      ⟨_, _, _, _, _, _, h, _⟩ | ⟨_, _, _, h, _⟩ | ⟨_, _, h, _⟩ |
      ⟨g, _, _, _, _, _, h, _⟩ | ⟨g, _, _, _, h⟩ | ⟨g, _, _, _, _, _, h, _⟩ |
      ⟨g, _, _, _, _, h⟩ | ⟨g, _, _, _, h⟩ | ⟨g, _, _, _, h, _⟩
    · rw [h] at hmem
      simp [calls_cons, Event.isCall, getwdEvent] at hmem
    · rw [h] at hmem
      simp [calls_cons, Event.isCall, getwdEvent] at hmem
    · rw [h] at hmem
      simp [calls_cons, Event.isCall, getwdEvent] at hmem
      rw [hmem] at he
      cases he
    · rw [h] at hmem
      simp at hmem
      rw [hmem] at he
      cases he
    · rw [h] at hmem
      simp only [List.mem_append, List.mem_singleton] at hmem
      rcases hmem with hmem | hmem
      · rw [hin e hmem] at he
        cases he
      · rw [hmem, hload] at he
        cases he
    · rw [h] at hmem
      simp only [List.mem_append, List.mem_singleton] at hmem
      rcases hmem with hmem | hmem
      · rw [hin e hmem] at he
        cases he
      · rw [hmem, hload] at he
        cases he
    all_goals
      rw [h] at hc
      exact ⟨g, (List.mem_filter.mp
        (mem_before_split Event.isOutputStep _ e _ _ _ _ hc hin (hload _) he)).1⟩
  · rw [← inputOpens_calls, ← loadCalls_calls, ← outputCreates_calls, ← renderCalls_calls,
      ← writes_calls]
    rcases openTemplate_cases w (parsedFlags w args) with ⟨hp, ho⟩ | ⟨hp, ho⟩ <;>
    rcases main_calls_cases w args with ⟨e, hwd, h⟩ | ⟨st, hwd, hx, h⟩ | ⟨hwd, hx, hv, h⟩ |
    ⟨e, hwd, hx, hv, hin, ho, h, hs⟩ | ⟨st, hrl, hl, h, hs⟩ | ⟨hrl, hl, h, hs⟩ |
    ⟨g, e, hrl, hl, hout, hc, h, hs⟩ | ⟨g, hrs, hr, ht, h⟩ | ⟨g, e, hrs, hr, ht, hte, h, hs⟩ |
    ⟨g, hrs, hr, ht, hte, h⟩ | ⟨g, hrs, hr, ht, h⟩ | ⟨g, hrs, hr, ht, h, hs⟩ <;>
    simp_all [loadCalls, renderCalls, inputOpens, outputCreates, writes, Event.loadCall,
      Event.renderCall, Event.inputOpen, Event.outputCreate, Event.write, inputEvents,
      outputEvents, loadEvent, getwdEvent, filterMap_ite, calls_cons, Event.isCall]

/-- C3 at a run with `-output out.html`, cut before the create of the output
file, and at a run whose input file cannot be opened. -/
theorem output_only_after_load_witness :
    (∃ g, Event.loadGraph (chosenInput (parsedFlags sampleWorld [.output "out.html"]))
        (parsedFlags sampleWorld [.output "out.html"]).keepTfJunk
        (parsedFlags sampleWorld [.output "out.html"]).excludePatterns (.returned g) ∈
      [Event.getwd "/home/ops/infra" none,
        Event.loadGraph Handle.stdin false [] (.returned ⟨7⟩)]) ∧
    (outputCreates (main missingInputWorld [.input "main.dot", .output "out.html"]).trace = [] ∧
      renderCalls (main missingInputWorld [.input "main.dot", .output "out.html"]).trace = [] ∧
      writes (main missingInputWorld [.input "main.dot", .output "out.html"]).trace = []) :=
  ⟨(output_only_after_load sampleWorld [.output "out.html"]).1
      [Event.getwd "/home/ops/infra" none, Event.loadGraph Handle.stdin false [] (.returned ⟨7⟩)]
      (Event.fileOpen (Handle.outputFile "out.html") none)
      [Event.fileOpen (Handle.asset "index.gohtml") none,
        Event.writeGraphHTML (Handle.outputFile "out.html") ⟨7⟩
          ⟨"infra", true, some (Handle.asset "index.gohtml")⟩ ⟨"<html/>", .returned ()⟩,
        Event.close (Handle.asset "index.gohtml") none,
        Event.close (Handle.outputFile "out.html") none]
      (by decide) (by decide),
    (output_only_after_load missingInputWorld [.input "main.dot", .output "out.html"]).2
      (Or.inl ⟨"main.dot", "no such file or directory", by decide⟩)⟩

/-- C10, amended: the output-type selector is checked last. A run with an
unrecognized output type and a non-empty `-output` path, whose input opens,
whose graph loads and whose output file can be created, has loaded the graph
and then created the output file before it fails: it ends with status 1, the
diagnostic being its last event, with no renderer invoked and the output file
empty whatever it held before. In every run that reaches the switch the error
variable is nil, so the error attached to the diagnostic is nil. -/
theorem unrecognized_type_validated_last (w : World) (args : List Arg) (g : Graph)
    (hun : ¬ recognized (parsedFlags w args).outputType)
    (hout : (parsedFlags w args).outputFilePath ≠ "")
    (hload : loadEvent (parsedFlags w args) (.returned g) ∈ (main w args).trace)
    (hcreate : w.osCreate (parsedFlags w args).outputFilePath = none) :
    (∃ pre, loadEvent (parsedFlags w args) (.returned g) ∈ pre ∧
      main w args =
        ⟨pre ++ [.fileOpen (Handle.outputFile (parsedFlags w args).outputFilePath) none,
          .logFatal none ("Invalid output type : " ++ (parsedFlags w args).outputType)], 1⟩) ∧
    renderCalls (main w args).trace = [] ∧
    (∀ old, contentAfter (parsedFlags w args).outputFilePath old (main w args).trace =
      some "") ∧
    (∀ tr s, mainPrelude w args = .atSwitch tr s → s.err = none) := by
  have hnil : ∀ tr s, mainPrelude w args = .atSwitch tr s → s.err = none := by
    intro tr s hreach
    obtain ⟨g', rfl, rfl⟩ := atSwitch_eq w args tr s hreach
    rfl
  have hmain : ∃ pre, loadEvent (parsedFlags w args) (.returned g) ∈ pre ∧
      main w args =
        ⟨pre ++ [.fileOpen (Handle.outputFile (parsedFlags w args).outputFilePath) none,
          .logFatal none ("Invalid output type : " ++ (parsedFlags w args).outputType)], 1⟩ := by
    have hni := loadEvent_not_mem_inputEvents (parsedFlags w args) (.returned g)
    rcases mainPrelude_cases w args with ⟨e, hwd, h⟩ | ⟨st, hwd, hx, h⟩ | ⟨hwd, hx, hv, h⟩ |
    ⟨e, hwd, hx, hv, hin, ho, h⟩ | ⟨st, hrl, hl, h⟩ | ⟨hrl, hl, h⟩ |
    ⟨g', e, hrl, hl, hout', hc, h⟩ | ⟨g', hrs, h⟩
    · simp [main, h, getwdEvent, loadEvent] at hload
    · simp [main, h, getwdEvent, loadEvent] at hload
    · simp [main, h, getwdEvent, loadEvent] at hload
    · simp [main, h, getwdEvent, loadEvent] at hload
    · simp [main, h, hni] at hload
      simp [getwdEvent, loadEvent] at hload
    · have hnd := loadEvent_not_mem_runDeferred w (parsedFlags w args) (.returned g)
        (inputDeferred (parsedFlags w args)) 2
      simp [main, h, hni, hnd] at hload
      simp [getwdEvent, loadEvent] at hload
    · rw [hcreate] at hc
      cases hc
    · have hm := main_of_unrecognized w args _ _ hun h
      rw [hm] at hload
      refine ⟨getwdEvent w :: (inputEvents (parsedFlags w args) ++
        [loadEvent (parsedFlags w args) (.returned g')]), ?_, ?_⟩
      · simp [switchTrace, hni, outputEvents, hout] at hload
        simp [getwdEvent, loadEvent] at hload
        simp [hload]
      · rw [hm]
        simp [switchTrace, switchState, outputEvents, hout]
  obtain ⟨pre, hpre, hm⟩ := hmain
  refine ⟨⟨pre, hpre, hm⟩, renderCalls_of_unrecognized w args hun, fun old => ?_, hnil⟩
  rw [hm]
  exact contentAfter_create_fatal _ old pre none _

/-- C10, amended, at a run with `-output-type svg -output out.svg` over an
existing file. -/
theorem unrecognized_type_validated_last_witness :
    contentAfter (parsedFlags sampleWorld [.outputType "svg", .output "out.svg"]).outputFilePath
      (some "digraph old") (main sampleWorld [.outputType "svg", .output "out.svg"]).trace =
        some "" :=
  (unrecognized_type_validated_last sampleWorld [.outputType "svg", .output "out.svg"] ⟨7⟩
    (by decide) (by decide) (by decide) (by decide)).2.2.1 (some "digraph old")

/-- C10 as stated fails: with an unrecognized output type and an `-output`
path at which no file can be created, the input opens and the graph loads, yet
the run ends on the failed create: the output file is not emptied and the
diagnostic about the output type is never logged. -/
theorem unrecognized_type_without_output_file :
    ¬ recognized (parsedFlags unwritableWorld [.outputType "svg", .output "out.svg"]).outputType ∧
    main unwritableWorld [.outputType "svg", .output "out.svg"] =
      ⟨[.getwd "/home/ops/infra" none, .loadGraph Handle.stdin false [] (.returned ⟨7⟩),
        .fileOpen (Handle.outputFile "out.svg") (some "permission denied"),
        .logFatal (some "permission denied") "Cannot open the file for writing"], 1⟩ ∧
    contentAfter "out.svg" (some "digraph old")
      (main unwritableWorld [.outputType "svg", .output "out.svg"]).trace =
        some "digraph old" ∧
    contentAfter "out.svg" none
      (main unwritableWorld [.outputType "svg", .output "out.svg"]).trace = none := by
  decide

/-- C4 fails on the code: the input file opens, the graph loads, creating the
output file fails, and `log.Fatal` ends the process with status 1 at that
point; the deferred close of the input file never runs. -/
theorem fatal_exit_skips_deferred_close :
    main unwritableWorld [.input "main.dot", .output "out.html"] =
      ⟨[.getwd "/home/ops/infra" none, .fileOpen (Handle.inputFile "main.dot") none,
        .loadGraph (Handle.inputFile "main.dot") false [] (.returned ⟨7⟩),
        .fileOpen (Handle.outputFile "out.html") (some "permission denied"),
        .logFatal (some "permission denied") "Cannot open the file for writing"], 1⟩ ∧
    closes (main unwritableWorld [.input "main.dot", .output "out.html"]).trace = [] := by
  decide

end TfGraphBeautifier
